import Mathlib

/-! # Tag repository of the stash sqlite package

A shallow embedding of `pkg/sqlite/tag.go`: the tag filter tree and its
validation, the criterion handlers, the query construction of `Query`, the
hydration loops of `FindMany` and `Query`, and `Destroy`.

Go pointers become `Option`, Go `error` results become `Option GoError`
(`none` is `nil`) or `Except GoError`, and code that talks to the store takes
the store primitives as a record of functions over an explicit store state.
-/

namespace Stash

/-! ## Values shared by the whole package -/

/-- Go `error` values seen by the tag repository. `ErrNoRows` is
`sql.ErrNoRows`, `New` is the result of `errors.New` and `fmt.Errorf` (the
formatted message), `storage` is any other error coming from the store.
Modelled from the spec: `illegalFilterCombination` is defined outside
`tag.go`; its result is kept as a value naming the two combinators. -/
inductive GoError where
  | ErrNoRows
  | New (msg : String)
  | illegalFilterCombination (type1 type2 : String)
  | storage (code : Nat)
  deriving DecidableEq, Repr

/-- A bound statement argument (Go `interface{}`): the tag code binds
integers and strings only. -/
inductive Arg where
  | int (v : Int)
  | str (s : String)
  deriving DecidableEq, Repr

/-- Modelled from the spec: `models.Tag` is declared outside `tag.go`; a tag
row is identified by its primary key and carries a name. -/
structure Tag where
  ID : Int
  Name : String
  deriving DecidableEq, Repr

/-- Modelled from the spec: the modifier vocabulary of a criterion, as
enumerated in the data model. -/
inductive CriterionModifier where
  | EQUALS | NOT_EQUALS | INCLUDES | EXCLUDES | IS_NULL | NOT_NULL
  | GREATER_THAN | LESS_THAN | BETWEEN | MATCHES_REGEX
  deriving DecidableEq, Repr

/-- Modelled from the spec: `models.IntCriterionInput`, an integer operand
with its modifier. -/
structure IntCriterionInput where
  Value : Int
  Modifier : CriterionModifier
  deriving DecidableEq, Repr

/-- The fields of `models.TagFilterType` that `tag.go` reads. The three
combinators are independently settable pointers. -/
inductive TagFilterType where
  | mk (And Or Not : Option TagFilterType)
       (IsMissing : Option String)
       (SceneCount ImageCount GalleryCount PerformerCount : Option IntCriterionInput)

namespace TagFilterType

/-- The empty filter `&models.TagFilterType{}`. -/
def empty : TagFilterType := .mk none none none none none none none none

def And : TagFilterType → Option TagFilterType
  | .mk a _ _ _ _ _ _ _ => a

def Or : TagFilterType → Option TagFilterType
  | .mk _ o _ _ _ _ _ _ => o

def Not : TagFilterType → Option TagFilterType
  | .mk _ _ n _ _ _ _ _ => n

def IsMissing : TagFilterType → Option String
  | .mk _ _ _ m _ _ _ _ => m

def SceneCount : TagFilterType → Option IntCriterionInput
  | .mk _ _ _ _ c _ _ _ => c

def ImageCount : TagFilterType → Option IntCriterionInput
  | .mk _ _ _ _ _ c _ _ => c

def GalleryCount : TagFilterType → Option IntCriterionInput
  | .mk _ _ _ _ _ _ c _ => c

def PerformerCount : TagFilterType → Option IntCriterionInput
  | .mk _ _ _ _ _ _ _ c => c

/-- Number of combinators among `And`, `Or`, `Not` that are populated at a
node. -/
def populated (t : TagFilterType) : Nat :=
  (if t.And.isSome then 1 else 0) + (if t.Or.isSome then 1 else 0)
    + (if t.Not.isSome then 1 else 0)

/-- `Node t n`: `n` is the root `t` or is reached from it through `And`,
`Or` and `Not` links. -/
inductive Node : TagFilterType → TagFilterType → Prop where
  | root (t : TagFilterType) : Node t t
  | viaAnd {t c n : TagFilterType} : t.And = some c → Node c n → Node t n
  | viaOr {t c n : TagFilterType} : t.Or = some c → Node c n → Node t n
  | viaNot {t c n : TagFilterType} : t.Not = some c → Node c n → Node t n

/-- The combinator of a node that an error message names. -/
def combinator (t : TagFilterType) (name : String) : Option TagFilterType :=
  if name = "AND" then t.And
  else if name = "OR" then t.Or
  else if name = "NOT" then t.Not
  else none

end TagFilterType

/-! ## Filter validation -/

/-- `tagQueryBuilder.validateFilter`: `none` is the `nil` error. -/
def validateFilter : TagFilterType → Option GoError
  | .mk (some a) Or Not _ _ _ _ _ =>
    if Or.isSome then
      some (GoError.illegalFilterCombination "AND" "OR")
    else if Not.isSome then
      some (GoError.illegalFilterCombination "AND" "NOT")
    else
      validateFilter a
  | .mk none (some o) Not _ _ _ _ _ =>
    if Not.isSome then
      some (GoError.illegalFilterCombination "OR" "NOT")
    else
      validateFilter o
  | .mk none none (some n) _ _ _ _ _ => validateFilter n
  | .mk none none none _ _ _ _ _ => none

/-- `Descent t n`: validation of `t` reaches `n`, every node passed on the
way having exactly the one combinator populated that leads on. -/
inductive Descent : TagFilterType → TagFilterType → Prop where
  | here (t : TagFilterType) : Descent t t
  | viaAnd {t c n : TagFilterType} :
      t.And = some c → t.Or = none → t.Not = none → Descent c n → Descent t n
  | viaOr {t c n : TagFilterType} :
      t.And = none → t.Or = some c → t.Not = none → Descent c n → Descent t n
  | viaNot {t c n : TagFilterType} :
      t.And = none → t.Or = none → t.Not = some c → Descent c n → Descent t n

/-- `RejectsWith n e`: node `n` has two combinators populated and `e` is the
error naming them, in the order of the checks of `validateFilter`. -/
def RejectsWith (n : TagFilterType) (e : GoError) : Prop :=
  (n.And.isSome ∧ n.Or.isSome ∧ e = GoError.illegalFilterCombination "AND" "OR") ∨
  (n.And.isSome ∧ n.Or = none ∧ n.Not.isSome ∧
      e = GoError.illegalFilterCombination "AND" "NOT") ∨
  (n.And = none ∧ n.Or.isSome ∧ n.Not.isSome ∧
      e = GoError.illegalFilterCombination "OR" "NOT")

/-! ## Joins, clauses and the filter builder

`filter.go`, `query.go` and `sql.go` of the package are outside the sources
at hand; the builder values below follow the data model of the
specification. -/

/-- Modelled from the spec: the join descriptor `{table, alias, onClause}` of
`query.go`, which is outside the sources. -/
structure join where
  table : String
  as : String
  onClause : String
  deriving DecidableEq, Repr

/-- Modelled from the spec: the identity key of a join is its alias, or its
table if the alias is absent. -/
def join.identity (j : join) : String :=
  if j.as = "" then j.table else j.as

/-- The join registry of a builder, in registration order. -/
abbrev joins := List join

/-- Modelled from the spec: the registry is keyed by identity, and
registering a join whose identity is already present is a no-op. -/
def joins.add (js : joins) (j : join) : joins :=
  if js.any (fun o => decide (o.identity = j.identity)) then js else js ++ [j]

/-- Registering several joins, one after the other. -/
def joins.addAll (js : joins) (newJoins : List join) : joins :=
  newJoins.foldl joins.add js

/-- Modelled from the spec: a WHERE or HAVING fragment `{sqlFragment, args}`
of `filter.go`, which is outside the sources. -/
structure sqlClause where
  sql : String
  args : List Arg
  deriving DecidableEq, Repr

/-- Modelled from the spec: the `filterBuilder` of `filter.go`, which is
outside the sources: at most one sub-filter with the operator that attaches
it, a join registry, and ordered WHERE and HAVING fragments. -/
inductive filterBuilder where
  | mk (subFilter : Option filterBuilder) (subFilterOp : String) (joins : joins)
       (whereClauses havingClauses : List sqlClause)

namespace filterBuilder

/-- The zero value `&filterBuilder{}`. -/
def empty : filterBuilder := .mk none "" [] [] []

def subFilter : filterBuilder → Option filterBuilder
  | .mk sub _ _ _ _ => sub

def subFilterOp : filterBuilder → String
  | .mk _ op _ _ _ => op

def joins : filterBuilder → Stash.joins
  | .mk _ _ js _ _ => js

def whereClauses : filterBuilder → List sqlClause
  | .mk _ _ _ w _ => w

def havingClauses : filterBuilder → List sqlClause
  | .mk _ _ _ _ hv => hv

/-- Modelled from the spec: attaching a sub-filter under an operator; a
builder holds one sub-filter, so a second attachment leaves the first. -/
def attach (op : String) (f a : filterBuilder) : filterBuilder :=
  match f with
  | .mk none _ js w hv => .mk (some a) op js w hv
  | .mk (some sub) o js w hv => .mk (some sub) o js w hv

/-- Modelled from the spec: `filterBuilder.and`. -/
def and (f a : filterBuilder) : filterBuilder := attach "AND" f a

/-- Modelled from the spec: `filterBuilder.or`. -/
def or (f a : filterBuilder) : filterBuilder := attach "OR" f a

/-- Modelled from the spec: `filterBuilder.not`. -/
def not (f a : filterBuilder) : filterBuilder := attach "NOT" f a

/-- Modelled from the spec: `filterBuilder.addJoin`, an idempotent join
registration. -/
def addJoin (f : filterBuilder) (table as onClause : String) : filterBuilder :=
  match f with
  | .mk sub op js w hv => .mk sub op (js.add ⟨table, as, onClause⟩) w hv

/-- Modelled from the spec: `filterBuilder.addWhere`, appending a WHERE
fragment with its bound args. -/
def addWhere (f : filterBuilder) (sql : String) (args : List Arg) : filterBuilder :=
  match f with
  | .mk sub op js w hv => .mk sub op js (w ++ [⟨sql, args⟩]) hv

/-- Modelled from the spec: `filterBuilder.addHaving`, appending a HAVING
fragment with its bound args. -/
def addHaving (f : filterBuilder) (sql : String) (args : List Arg) : filterBuilder :=
  match f with
  | .mk sub op js w hv => .mk sub op js w (hv ++ [⟨sql, args⟩])

/-- Modelled from the spec: the joins of a builder followed by those of its
sub-filter chain. -/
def getAllJoins : filterBuilder → List join
  | .mk none _ js _ _ => js
  | .mk (some sub) _ js _ _ => js ++ getAllJoins sub

/-- Number of builders on the sub-filter chain, this one included. -/
def chainLength : filterBuilder → Nat
  | .mk none _ _ _ _ => 1
  | .mk (some sub) _ _ _ _ => chainLength sub + 1

end filterBuilder

/-- A criterion handler contributes to the filter builder it is given. -/
abbrev criterionHandlerFunc := filterBuilder → filterBuilder

/-- Modelled from the spec: `filterBuilder.handleCriterionFunc` invokes the
handler on the builder. -/
def filterBuilder.handleCriterionFunc (f : filterBuilder) (handler : criterionHandlerFunc) :
    filterBuilder :=
  handler f

/-- Helper functions of the package that `tag.go` calls and that are outside
the sources; they produce SQL text and are taken as parameters.
`getPagination` reads the page and the page size of the find filter (the
pagination spec `{page, perPage}` of the data model), and the two
`generate` functions turn a filter builder into its combined WHERE and
HAVING fragment with the args in fragment order. -/
structure sqlHelpers where
  selectDistinctIDs : String → String
  getSearchBinding : List String → String → Bool → String × List Arg
  getIntCriterionWhereClause : String → IntCriterionInput → String × Int
  getSort : String → String → String → String
  getPagination : Option Int → Option Int → String
  generateWhereClauses : filterBuilder → String × List Arg
  generateHavingClauses : filterBuilder → String × List Arg

/-! ## The query builder -/

/-- Modelled from the spec: the `queryBuilder` of `query.go`, which is
outside the sources: SELECT body, join registry, ordered WHERE and HAVING
fragments, args, and the sort and pagination tail. -/
structure queryBuilder where
  body : String
  joins : joins
  whereClauses : List String
  havingClauses : List String
  args : List Arg
  sortAndPagination : String
  deriving DecidableEq, Repr

/-- Modelled from the spec: `repository.newQuery`, a fresh builder. -/
def newQuery : queryBuilder := ⟨"", [], [], [], [], ""⟩

namespace queryBuilder

/-- Modelled from the spec: `queryBuilder.addWhere`. -/
def addWhere (qb : queryBuilder) (clause : String) : queryBuilder :=
  { qb with whereClauses := qb.whereClauses ++ [clause] }

/-- Modelled from the spec: `queryBuilder.addHaving`. -/
def addHaving (qb : queryBuilder) (clause : String) : queryBuilder :=
  { qb with havingClauses := qb.havingClauses ++ [clause] }

/-- Modelled from the spec: `queryBuilder.addArg`. -/
def addArg (qb : queryBuilder) (args : List Arg) : queryBuilder :=
  { qb with args := qb.args ++ args }

/-- Modelled from the spec: `queryBuilder.join`, an idempotent join
registration. -/
def join (qb : queryBuilder) (table as onClause : String) : queryBuilder :=
  { qb with joins := qb.joins.add ⟨table, as, onClause⟩ }

/-- Modelled from the spec: `queryBuilder.addFilter`: the WHERE fragment of
the filter and its args, then its HAVING fragment and its args, then its
joins; an empty fragment contributes nothing. -/
def addFilter (h : sqlHelpers) (qb : queryBuilder) (f : filterBuilder) : queryBuilder :=
  let w := h.generateWhereClauses f
  let qb := if w.1 = "" then qb else qb.addWhere w.1
  let qb := qb.addArg w.2
  let hv := h.generateHavingClauses f
  let qb := if hv.1 = "" then qb else qb.addHaving hv.1
  let qb := qb.addArg hv.2
  { qb with joins := qb.joins.addAll f.getAllJoins }

end queryBuilder

/-! ## Criterion handlers and `makeFilter` -/

def tagTable : String := "tags"

def tagIDColumn : String := "tag_id"

/-- Modelled from the spec: `repository.join` of `repository.go`, which is
outside the sources: it joins the repository table (under its alias, if one
is given) to the parent id column on the repository id column. -/
def repositoryJoin (tableName idColumn : String) (f : filterBuilder) (as parentIDCol : String) :
    filterBuilder :=
  let t := if as = "" then tableName else as
  f.addJoin tableName as (t ++ "." ++ idColumn ++ " = " ++ parentIDCol)

/-- `tagIsMissingCriterionHandler`; the image repository of a tag builder
has table `tags_image` and id column `tag_id`. -/
def tagIsMissingCriterionHandler (isMissing : Option String) : criterionHandlerFunc :=
  fun f =>
    match isMissing with
    | none => f
    | some m =>
      if m ≠ "" then
        if m = "image" then
          (repositoryJoin "tags_image" tagIDColumn f "" "tags.id").addWhere
            "tags_image.tag_id IS NULL" []
        else
          f.addWhere ("(tags." ++ m ++ " IS NULL OR TRIM(tags." ++ m ++ ") = '')") []
      else f

/-- `tagSceneCountCriterionHandler`. -/
def tagSceneCountCriterionHandler (h : sqlHelpers) (sceneCount : Option IntCriterionInput) :
    criterionHandlerFunc :=
  fun f =>
    match sceneCount with
    | none => f
    | some c =>
      let f := f.addJoin "scenes_tags" "" "scenes_tags.tag_id = tags.id"
      let r := h.getIntCriterionWhereClause "count(distinct scenes_tags.scene_id)" c
      let args : List Arg := if r.2 = 1 then [Arg.int c.Value] else []
      f.addHaving r.1 args

/-- `tagImageCountCriterionHandler`. -/
def tagImageCountCriterionHandler (h : sqlHelpers) (imageCount : Option IntCriterionInput) :
    criterionHandlerFunc :=
  fun f =>
    match imageCount with
    | none => f
    | some c =>
      let f := f.addJoin "images_tags" "" "images_tags.tag_id = tags.id"
      let r := h.getIntCriterionWhereClause "count(distinct images_tags.image_id)" c
      let args : List Arg := if r.2 = 1 then [Arg.int c.Value] else []
      f.addHaving r.1 args

/-- `tagGalleryCountCriterionHandler`. -/
def tagGalleryCountCriterionHandler (h : sqlHelpers) (galleryCount : Option IntCriterionInput) :
    criterionHandlerFunc :=
  fun f =>
    match galleryCount with
    | none => f
    | some c =>
      let f := f.addJoin "galleries_tags" "" "galleries_tags.tag_id = tags.id"
      let r := h.getIntCriterionWhereClause "count(distinct galleries_tags.gallery_id)" c
      let args : List Arg := if r.2 = 1 then [Arg.int c.Value] else []
      f.addHaving r.1 args

/-- `tagPerformerCountCriterionHandler`. -/
def tagPerformerCountCriterionHandler (h : sqlHelpers)
    (performerCount : Option IntCriterionInput) : criterionHandlerFunc :=
  fun f =>
    match performerCount with
    | none => f
    | some c =>
      let f := f.addJoin "performers_tags" "" "performers_tags.tag_id = tags.id"
      let r := h.getIntCriterionWhereClause "count(distinct performers_tags.performer_id)" c
      let args : List Arg := if r.2 = 1 then [Arg.int c.Value] else []
      f.addHaving r.1 args

/-- The five handler calls that close `makeFilter`, in source order. -/
def applyTagCriteria (h : sqlHelpers) (query : filterBuilder)
    (isMissing : Option String)
    (sceneCount imageCount galleryCount performerCount : Option IntCriterionInput) :
    filterBuilder :=
  let query := query.handleCriterionFunc (tagIsMissingCriterionHandler isMissing)
  let query := query.handleCriterionFunc (tagSceneCountCriterionHandler h sceneCount)
  let query := query.handleCriterionFunc (tagImageCountCriterionHandler h imageCount)
  let query := query.handleCriterionFunc (tagGalleryCountCriterionHandler h galleryCount)
  query.handleCriterionFunc (tagPerformerCountCriterionHandler h performerCount)

/-- `tagQueryBuilder.makeFilter`. -/
def makeFilter (h : sqlHelpers) : TagFilterType → filterBuilder
  | .mk And Or Not isMissing sceneCount imageCount galleryCount performerCount =>
    let query := filterBuilder.empty
    let query := match And with
      | some a => query.and (makeFilter h a)
      | none => query
    let query := match Or with
      | some o => query.or (makeFilter h o)
      | none => query
    let query := match Not with
      | some n => query.not (makeFilter h n)
      | none => query
    applyTagCriteria h query isMissing sceneCount imageCount galleryCount performerCount

/-! ## Find filter and sort -/

/-- Modelled from the spec: the sort direction `ASC|DESC`. -/
inductive SortDirectionEnum where
  | ASC | DESC
  deriving DecidableEq, Repr

/-- Modelled from the spec: `models.FindFilterType`, which is declared
outside the sources: free-text term, pagination and sort (`Sort_` is the
field `Sort`). -/
structure FindFilterType where
  Q : Option String
  Page : Option Int
  PerPage : Option Int
  Sort_ : Option String
  Direction : Option SortDirectionEnum
  deriving DecidableEq, Repr

namespace FindFilterType

/-- The zero value `&models.FindFilterType{}`. -/
def empty : FindFilterType := ⟨none, none, none, none, none⟩

/-- Modelled from the spec: `FindFilterType.GetSort`, the requested sort key
or the given default when none is requested. -/
def GetSort (ff : FindFilterType) (defaultSort : String) : String :=
  match ff.Sort_ with
  | some sort => sort
  | none => defaultSort

/-- Modelled from the spec: `FindFilterType.GetDirection`, the requested
direction, ascending when none is requested. -/
def GetDirection (ff : FindFilterType) : String :=
  match ff.Direction with
  | some SortDirectionEnum.DESC => "DESC"
  | _ => "ASC"

end FindFilterType

/-- `tagQueryBuilder.getDefaultTagSort`. -/
def getDefaultTagSort (h : sqlHelpers) : String :=
  h.getSort "name" "ASC" "tags"

/-- `tagQueryBuilder.getTagSort`, returning the builder with the join it may
have registered and the sort clause. `findFilter.Sort` is read whether or
not `findFilter` is nil; `none` is the run-time panic of reading it through
a nil pointer. -/
def getTagSort (h : sqlHelpers) (query : queryBuilder) (findFilter : Option FindFilterType) :
    Option (queryBuilder × String) :=
  let sort := match findFilter with
    | none => "name"
    | some ff => ff.GetSort "name"
  let direction := match findFilter with
    | none => "ASC"
    | some ff => ff.GetDirection
  match findFilter with
  | none => none
  | some ff =>
    match ff.Sort_ with
    | some key =>
      if key = "scenes_count" then
        some (query.join "scenes_tags" "" "scenes_tags.tag_id = tags.id",
          " ORDER BY COUNT(distinct scenes_tags.scene_id) " ++ direction)
      else if key = "images_count" then
        some (query.join "images_tags" "" "images_tags.tag_id = tags.id",
          " ORDER BY COUNT(distinct images_tags.image_id) " ++ direction)
      else if key = "galleries_count" then
        some (query.join "galleries_tags" "" "galleries_tags.tag_id = tags.id",
          " ORDER BY COUNT(distinct galleries_tags.gallery_id) " ++ direction)
      else if key = "performers_count" then
        some (query.join "performers_tags" "" "performers_tags.tag_id = tags.id",
          " ORDER BY COUNT(distinct performers_tags.performer_id) " ++ direction)
      else
        some (query, h.getSort sort direction "tags")
    | none => some (query, h.getSort sort direction "tags")

/-! ## The store -/

/-- The primitives of the transaction handle and of the embedded
`repository` that `tag.go` calls; they are outside the sources and are taken
as parameters over a store state `σ`. Statements that write (`Exec`,
`destroyExisting`) return the next state with their error; the reads
(`runCountQuery`, `get`, `executeFind`) answer from the state of the
enclosing transaction. -/
structure dbi (σ : Type) where
  Exec : String → List Arg → σ → σ × Option GoError
  runCountQuery : String → List Arg → σ → Except GoError Int
  destroyExisting : List Int → σ → σ × Option GoError
  get : Int → σ → Except GoError Tag
  executeFind : queryBuilder → σ → Except GoError (List Int × Int)

/-! ## Single-row operations -/

/-- `tagQueryBuilder.Destroy`: the state of the store when it returns, with
the error it returns. -/
def Destroy {σ : Type} (tx : dbi σ) (id : Int) (s : σ) : σ × Option GoError :=
  match tx.Exec "DELETE FROM scenes_tags WHERE tag_id = ?" [Arg.int id] s with
  | (s, some err) => (s, some err)
  | (s, none) =>
    match tx.Exec "DELETE FROM scene_markers_tags WHERE tag_id = ?" [Arg.int id] s with
    | (s, some err) => (s, some err)
    | (s, none) =>
      let countQuery := "SELECT COUNT(*) as count FROM scene_markers where primary_tag_id = ?"
      let args := [Arg.int id]
      match tx.runCountQuery countQuery args s with
      | .error err => (s, some err)
      | .ok primaryMarkers =>
        if primaryMarkers > 0 then
          (s, some (GoError.New "Cannot delete tag used as a primary tag in scene markers"))
        else
          tx.destroyExisting [id] s

/-- `tagQueryBuilder.Find`: `.ok none` is the pair `(nil, nil)`. -/
def Find {σ : Type} (tx : dbi σ) (id : Int) (s : σ) : Except GoError (Option Tag) :=
  match tx.get id s with
  | .error err =>
    if err = GoError.ErrNoRows then .ok none else .error err
  | .ok ret => .ok (some ret)

/-- The loop of `FindMany` over the ids that remain, `tags` holding what has
been appended so far. -/
def FindMany.loop {σ : Type} (tx : dbi σ) (s : σ) : List Int → List Tag → Except GoError (List Tag)
  | [], tags => .ok tags
  | id :: rest, tags =>
    match Find tx id s with
    | .error err => .error err
    | .ok none => .error (GoError.New ("tag with id " ++ toString id ++ " not found"))
    | .ok (some tag) => FindMany.loop tx s rest (tags ++ [tag])

/-- `tagQueryBuilder.FindMany`: `.error` is the pair `(nil, err)`. -/
def FindMany {σ : Type} (tx : dbi σ) (ids : List Int) (s : σ) : Except GoError (List Tag) :=
  FindMany.loop tx s ids []

/-! ## `Query` -/

/-- What `Query` returns, `(tags, count, err)`, together with the local
query builder as it stands at the return. An entry of `tags` is `none` for a
nil tag pointer. -/
structure QueryReturn where
  tags : List (Option Tag)
  count : Int
  err : Option GoError
  query : queryBuilder
  deriving DecidableEq, Repr

/-- The hydration loop of `Query` over the ids that remain, `tags` holding
what has been appended so far. -/
def Query.loop {σ : Type} (tx : dbi σ) (s : σ) :
    List Int → List (Option Tag) → Except GoError (List (Option Tag))
  | [], tags => .ok tags
  | id :: rest, tags =>
    match Find tx id s with
    | .error err => .error err
    | .ok tag => Query.loop tx s rest (tags ++ [tag])

/-- The builder of `Query` when it reaches `validateFilter`: the base body
and, for a non-empty search term, the search clause with its args. -/
def Query.start (h : sqlHelpers) (findFilter : FindFilterType) : queryBuilder :=
  let query := newQuery
  let query := { query with body := h.selectDistinctIDs tagTable }
  match findFilter.Q with
  | some q =>
    if q ≠ "" then
      let searchColumns := ["tags.name"]
      let r := h.getSearchBinding searchColumns q false
      (query.addWhere r.1).addArg r.2
    else query
  | none => query

/-- `tagQueryBuilder.Query`; `none` is a run-time panic. -/
def Query {σ : Type} (h : sqlHelpers) (tx : dbi σ) (tagFilter : Option TagFilterType)
    (findFilter : Option FindFilterType) (s : σ) : Option QueryReturn :=
  let tagFilter := match tagFilter with
    | none => TagFilterType.empty
    | some t => t
  let findFilter := match findFilter with
    | none => FindFilterType.empty
    | some ff => ff
  let query := Query.start h findFilter
  match validateFilter tagFilter with
  | some err => some ⟨[], 0, some err, query⟩
  | none =>
    let filter := makeFilter h tagFilter
    let query := query.addFilter h filter
    match getTagSort h query (some findFilter) with
    | none => none
    | some (query, sort) =>
      let query :=
        { query with
          sortAndPagination := sort ++ h.getPagination findFilter.Page findFilter.PerPage }
      match tx.executeFind query s with
      | .error err => some ⟨[], 0, some err, query⟩
      | .ok (idsResult, countResult) =>
        match Query.loop tx s idsResult [] with
        | .error err => some ⟨[], 0, some err, query⟩
        | .ok tags => some ⟨tags, countResult, none, query⟩

/-- The builder that `Query` hands to `executeFind` once validation has
passed: the start builder with the filter added, the join of the sort
registered, and the sort and pagination tail set. -/
def Query.built (h : sqlHelpers) (tagFilter : Option TagFilterType)
    (findFilter : Option FindFilterType) : Option queryBuilder :=
  let tagFilter := match tagFilter with
    | none => TagFilterType.empty
    | some t => t
  let findFilter := match findFilter with
    | none => FindFilterType.empty
    | some ff => ff
  let query := (Query.start h findFilter).addFilter h (makeFilter h tagFilter)
  match getTagSort h query (some findFilter) with
  | none => none
  | some (query, sort) =>
    some { query with
      sortAndPagination := sort ++ h.getPagination findFilter.Page findFilter.PerPage }

/-! ## The four counted associations of a tag -/

/-- The associations of a tag that can be counted by a criterion and by a
sort key. -/
inductive TagAssociation where
  | scenes | images | galleries | performers
  deriving DecidableEq, Repr

namespace TagAssociation

/-- The association table. -/
def table : TagAssociation → String
  | scenes => "scenes_tags"
  | images => "images_tags"
  | galleries => "galleries_tags"
  | performers => "performers_tags"

/-- The column of the association table that holds the related id. -/
def related : TagAssociation → String
  | scenes => "scene_id"
  | images => "image_id"
  | galleries => "gallery_id"
  | performers => "performer_id"

/-- The ON clause of the join of the association table. -/
def onClause : TagAssociation → String
  | scenes => "scenes_tags.tag_id = tags.id"
  | images => "images_tags.tag_id = tags.id"
  | galleries => "galleries_tags.tag_id = tags.id"
  | performers => "performers_tags.tag_id = tags.id"

/-- The sort key that counts the association. -/
def sortKey : TagAssociation → String
  | scenes => "scenes_count"
  | images => "images_count"
  | galleries => "galleries_count"
  | performers => "performers_count"

/-- The expression a count criterion compares,
`count(distinct <assoc>.<related>_id)`. -/
def countExpr : TagAssociation → String
  | scenes => "count(distinct scenes_tags.scene_id)"
  | images => "count(distinct images_tags.image_id)"
  | galleries => "count(distinct galleries_tags.gallery_id)"
  | performers => "count(distinct performers_tags.performer_id)"

/-- The join of the association table, with the empty alias. -/
def join (a : TagAssociation) : Stash.join := ⟨a.table, "", a.onClause⟩

/-- The count criterion handler of the association. -/
def handler (h : sqlHelpers) : TagAssociation → Option IntCriterionInput → criterionHandlerFunc
  | scenes => tagSceneCountCriterionHandler h
  | images => tagImageCountCriterionHandler h
  | galleries => tagGalleryCountCriterionHandler h
  | performers => tagPerformerCountCriterionHandler h

/-- The count criterion of the association at a filter node. -/
def criterion : TagAssociation → TagFilterType → Option IntCriterionInput
  | scenes => TagFilterType.SceneCount
  | images => TagFilterType.ImageCount
  | galleries => TagFilterType.GalleryCount
  | performers => TagFilterType.PerformerCount

end TagAssociation

/-- The join that the `image` case of the is-missing handler registers. -/
def tagsImageJoin : join := ⟨"tags_image", "", "tags_image.tag_id = tags.id"⟩

/-- The joins that the tag handlers and the tag sort can register. -/
def KnownJoin (j : join) : Prop :=
  j = tagsImageJoin ∨ ∃ a : TagAssociation, j = a.join


/-- Number of nodes of a filter tree: the root and every node reached
through `And`, `Or` and `Not` links. -/
def TagFilterType.nodeCount : TagFilterType → Nat
  | .mk And Or Not _ _ _ _ _ =>
    1 + (match And with
      | some a => a.nodeCount
      | none => 0)
      + (match Or with
      | some o => o.nodeCount
      | none => 0)
      + (match Not with
      | some n => n.nodeCount
      | none => 0)

/-! ## The scene resolver (`pkg/api/resolver_query_find_scene.go`) -/

/-- Modelled from the spec: `models.Scene`, which is declared outside the
sources; a scene row is identified by its primary key. -/
structure Scene where
  ID : Int
  deriving DecidableEq, Repr

/-- The scene reader of a read transaction, `repo.Scene()`; it is outside
the sources and its two lookups are taken as parameters. Each returns the
Go pair `(scene, err)`. -/
structure SceneReader where
  Find : Int → Option Scene × Option GoError
  FindByChecksum : String → Option Scene × Option GoError

/-- Modelled from the spec: `withReadTxn`, which is outside the sources,
runs the function inside a read transaction on the repository and returns
the error of the function. The function is given as the value it leaves in
the captured variable together with the error it returns. -/
def withReadTxn {α : Type} (repo : SceneReader) (fn : SceneReader → α × Option GoError) :
    α × Option GoError :=
  fn repo

/-- The function `FindScene` runs in the read transaction: the value it
leaves in the captured `scene`, and the error it returns. `Atoi` is
`strconv.Atoi`. In the `id` branch `idInt, err := strconv.Atoi(*id)` declares
a new `err` for that block, and `scene, err = qb.Find(idInt)` assigns that
one; the final `return err` returns the `err` declared at the top of the
function. -/
def FindScene.fn (Atoi : String → Except GoError Int) (id checksum : Option String)
    (repo : SceneReader) : Option Scene × Option GoError :=
  let scene : Option Scene := none
  let qb := repo
  let err : Option GoError := none
  match id with
  | some idStr =>
    match Atoi idStr with
    | .error errInner => (scene, some errInner)
    | .ok idInt =>
      let r := qb.Find idInt
      let scene := r.1
      (scene, err)
  | none =>
    match checksum with
    | some c =>
      let r := qb.FindByChecksum c
      let scene := r.1
      let err := r.2
      (scene, err)
    | none => (scene, err)

/-- `queryResolver.FindScene`: the Go pair `(scene, err)` it returns. -/
def FindScene (Atoi : String → Except GoError Int) (repo : SceneReader)
    (id checksum : Option String) : Option Scene × Option GoError :=
  match withReadTxn repo (FindScene.fn Atoi id checksum) with
  | (_, some err) => (none, some err)
  | (scene, none) => (scene, none)

/-- The value of a run of decimal digits, `none` when a character is not a
digit. -/
def parseDigits : List Char → Nat → Option Nat
  | [], acc => some acc
  | c :: cs, acc =>
    if c.isDigit then parseDigits cs (acc * 10 + (c.toNat - 48)) else none

/-- Modelled from the spec: `strconv.Atoi` of the Go library: decimal digits
with an optional sign, within the range of a 64-bit `int`. -/
def Atoi (s : String) : Except GoError Int :=
  let syntaxError : Except GoError Int :=
    .error (GoError.New ("strconv.Atoi: parsing \"" ++ s ++ "\": invalid syntax"))
  let rangeError : Except GoError Int :=
    .error (GoError.New ("strconv.Atoi: parsing \"" ++ s ++ "\": value out of range"))
  let digits : List Char := match s.data with
    | '-' :: cs => cs
    | '+' :: cs => cs
    | cs => cs
  let negative : Bool := match s.data with
    | '-' :: _ => true
    | _ => false
  match digits with
  | [] => syntaxError
  | c :: cs =>
    match parseDigits (c :: cs) 0 with
    | none => syntaxError
    | some n =>
      if negative then
        if n ≤ 2 ^ 63 then .ok (-(n : Int)) else rangeError
      else
        if n < 2 ^ 63 then .ok (n : Int) else rangeError

/-- A scene reader whose lookup by id fails with a storage error and whose
lookup by checksum fails with another. -/
def failingScenes : SceneReader :=
  { Find := fun _ => (none, some (GoError.storage 7))
    FindByChecksum := fun _ => (none, some (GoError.storage 8)) }

/-! ## A concrete store and concrete helpers

Used to evaluate the definitions above on concrete inputs. -/

/-- Modelled from the spec: the rows the tag repository touches, with the
log of the statements that wrote to them. `scenes_tags` holds
`(scene_id, tag_id)`, `scene_markers_tags` holds `(scene_marker_id, tag_id)`
and `scene_markers` holds `(id, primary_tag_id)`. -/
structure MemStore where
  tags : List Tag
  scenes_tags : List (Int × Int)
  scene_markers_tags : List (Int × Int)
  scene_markers : List (Int × Int)
  log : List String
  deriving DecidableEq, Repr

/-- Modelled from the spec: the statements of `Destroy` run on the rows of a
`MemStore`; any other statement is refused by the store. -/
def MemStore.Exec (sql : String) (args : List Arg) (s : MemStore) : MemStore × Option GoError :=
  match args with
  | [Arg.int id] =>
    if sql = "DELETE FROM scenes_tags WHERE tag_id = ?" then
      ({ s with scenes_tags := s.scenes_tags.filter (fun r => r.2 ≠ id), log := s.log ++ [sql] },
        none)
    else if sql = "DELETE FROM scene_markers_tags WHERE tag_id = ?" then
      ({ s with
          scene_markers_tags := s.scene_markers_tags.filter (fun r => r.2 ≠ id),
          log := s.log ++ [sql] },
        none)
    else (s, some (GoError.storage 1))
  | _ => (s, some (GoError.storage 1))

/-- Modelled from the spec: the count of the scene markers that have the
given primary tag. -/
def MemStore.runCountQuery (sql : String) (args : List Arg) (s : MemStore) : Except GoError Int :=
  match args with
  | [Arg.int id] =>
    if sql = "SELECT COUNT(*) as count FROM scene_markers where primary_tag_id = ?" then
      .ok ((s.scene_markers.filter (fun r => r.2 = id)).length : Int)
    else .error (GoError.storage 1)
  | _ => .error (GoError.storage 1)

/-- Modelled from the spec: deleting the tags with the given ids. -/
def MemStore.destroyExisting (ids : List Int) (s : MemStore) : MemStore × Option GoError :=
  ({ s with
      tags := s.tags.filter (fun t => decide (t.ID ∉ ids)),
      log := s.log ++ ["DELETE FROM tags WHERE id = ?"] },
    none)

/-- Modelled from the spec: lookup of a tag row by primary key. -/
def MemStore.get (id : Int) (s : MemStore) : Except GoError Tag :=
  match s.tags.find? (fun t => decide (t.ID = id)) with
  | some t => .ok t
  | none => .error GoError.ErrNoRows

/-- Modelled from the spec: a find that selects every tag row, in stored
order, whatever the filter. -/
def MemStore.executeFind (_ : queryBuilder) (s : MemStore) : Except GoError (List Int × Int) :=
  .ok (s.tags.map (fun t => t.ID), (s.tags.length : Int))

/-- The store primitives over a `MemStore`. -/
def memTx : dbi MemStore :=
  { Exec := MemStore.Exec
    runCountQuery := MemStore.runCountQuery
    destroyExisting := MemStore.destroyExisting
    get := MemStore.get
    executeFind := MemStore.executeFind }

/-- The SQL fragments of a clause list joined by `AND`, with their args in
fragment order. -/
def joinClauses (cs : List sqlClause) : String × List Arg :=
  (" AND ".intercalate (cs.map (fun c => c.sql)), (cs.map (fun c => c.args)).flatten)

/-- Modelled from the spec: the fragment of a filter builder chain. `AND` and
`OR` combine the fragment of a builder with that of its sub-filter, each
wrapped in parentheses; `NOT` negates the fragment of the sub-filter. -/
def generateClauses (pick : filterBuilder → List sqlClause) : filterBuilder → String × List Arg
  | .mk none op js w hv => joinClauses (pick (.mk none op js w hv))
  | .mk (some sub) op js w hv =>
    let own := joinClauses (pick (.mk (some sub) op js w hv))
    let child := generateClauses pick sub
    if child.1 = "" then own
    else if op = "NOT" then
      ((if own.1 = "" then "" else own.1 ++ " AND ") ++ "NOT (" ++ child.1 ++ ")",
        own.2 ++ child.2)
    else if own.1 = "" then child
    else ("(" ++ own.1 ++ ") " ++ op ++ " (" ++ child.1 ++ ")", own.2 ++ child.2)

/-- Modelled from the spec: concrete SQL text helpers. A count comparison
binds its threshold for the equality and inequality modifiers and binds
nothing for the presence tests. -/
def memHelpers : sqlHelpers :=
  { selectDistinctIDs := fun table => "SELECT DISTINCT " ++ table ++ ".id FROM " ++ table
    getSearchBinding := fun columns q _ =>
      ("(" ++ " OR ".intercalate (columns.map (fun c => c ++ " LIKE ?")) ++ ")",
        columns.map (fun _ => Arg.str ("%" ++ q ++ "%")))
    getIntCriterionWhereClause := fun column input =>
      match input.Modifier with
      | .EQUALS => (column ++ " = ?", 1)
      | .NOT_EQUALS => (column ++ " != ?", 1)
      | .GREATER_THAN => (column ++ " > ?", 1)
      | .LESS_THAN => (column ++ " < ?", 1)
      | .IS_NULL => (column ++ " IS NULL", 0)
      | .NOT_NULL => (column ++ " IS NOT NULL", 0)
      | .BETWEEN => (column ++ " BETWEEN ? AND ?", 2)
      | _ => (column ++ " = ?", 1)
    getSort := fun sort direction table => " ORDER BY " ++ table ++ "." ++ sort ++ " " ++ direction
    getPagination := fun page perPage =>
      match perPage with
      | some n =>
        if n < 0 then " "
        else " LIMIT " ++ toString n ++ " OFFSET " ++ toString ((page.getD 1 - 1) * n) ++ " "
      | none => " LIMIT 25 OFFSET " ++ toString ((page.getD 1 - 1) * 25) ++ " "
    generateWhereClauses := generateClauses filterBuilder.whereClauses
    generateHavingClauses := generateClauses filterBuilder.havingClauses }

/-! ## Validation: proofs -/

theorem descent_node {t n : TagFilterType} (h : Descent t n) : TagFilterType.Node t n := by
  induction h with
  | here t => exact .root t
  | viaAnd ha _ _ _ ih => exact .viaAnd ha ih
  | viaOr _ ho _ _ ih => exact .viaOr ho ih
  | viaNot _ _ hn _ ih => exact .viaNot hn ih

theorem rejectsWith_populated {n : TagFilterType} {e : GoError} (h : RejectsWith n e) :
    2 ≤ n.populated := by
  rcases n with ⟨a, o, x, _, _, _, _, _⟩
  rcases h with ⟨h1, h2, _⟩ | ⟨h1, _, h3, _⟩ | ⟨_, h2, h3, _⟩ <;>
    simp only [TagFilterType.And, TagFilterType.Or, TagFilterType.Not] at * <;>
    simp [TagFilterType.populated, TagFilterType.And, TagFilterType.Or, TagFilterType.Not, *]

/-- Whenever validation fails, it has descended to a node with two
combinators populated and returns the error of that node. -/
theorem validateFilter_some : ∀ (t : TagFilterType) (e : GoError),
    validateFilter t = some e → ∃ n, Descent t n ∧ RejectsWith n e
  | .mk (some a) (some o) x m c1 c2 c3 c4, e, h => by
    refine ⟨_, .here _, Or.inl ?_⟩
    simp [validateFilter] at h
    simp [TagFilterType.And, TagFilterType.Or, h.symm]
  | .mk (some a) none (some x) m c1 c2 c3 c4, e, h => by
    refine ⟨_, .here _, Or.inr (Or.inl ?_)⟩
    simp [validateFilter] at h
    simp [TagFilterType.And, TagFilterType.Or, TagFilterType.Not, h.symm]
  | .mk (some a) none none m c1 c2 c3 c4, e, h => by
    simp [validateFilter] at h
    obtain ⟨n, hd, hr⟩ := validateFilter_some a e h
    exact ⟨n, .viaAnd rfl rfl rfl hd, hr⟩
  | .mk none (some o) (some x) m c1 c2 c3 c4, e, h => by
    refine ⟨_, .here _, Or.inr (Or.inr ?_)⟩
    simp [validateFilter] at h
    simp [TagFilterType.And, TagFilterType.Or, TagFilterType.Not, h.symm]
  | .mk none (some o) none m c1 c2 c3 c4, e, h => by
    simp [validateFilter] at h
    obtain ⟨n, hd, hr⟩ := validateFilter_some o e h
    exact ⟨n, .viaOr rfl rfl rfl hd, hr⟩
  | .mk none none (some x) m c1 c2 c3 c4, e, h => by
    simp [validateFilter] at h
    obtain ⟨n, hd, hr⟩ := validateFilter_some x e h
    exact ⟨n, .viaNot rfl rfl rfl hd, hr⟩
  | .mk none none none m c1 c2 c3 c4, e, h => by
    simp [validateFilter] at h

/-- A node with two combinators populated is rejected on the spot. -/
theorem validateFilter_rejects_here {n : TagFilterType} (h : 2 ≤ n.populated) :
    ∃ e, validateFilter n = some e ∧ RejectsWith n e := by
  rcases n with ⟨a, o, x, _, _, _, _, _⟩
  rcases a with _ | a <;> rcases o with _ | o <;> rcases x with _ | x <;>
    simp [TagFilterType.populated, TagFilterType.And, TagFilterType.Or, TagFilterType.Not] at h <;>
    simp [validateFilter, RejectsWith, TagFilterType.And, TagFilterType.Or, TagFilterType.Not]

/-- Validation fails on a tree as soon as it fails on a child. -/
theorem validateFilter_of_child {t c : TagFilterType}
    (hc : t.And = some c ∨ t.Or = some c ∨ t.Not = some c)
    (h : (validateFilter c).isSome) : (validateFilter t).isSome := by
  rcases t with ⟨a, o, x, _, _, _, _, _⟩
  rcases a with _ | a <;> rcases o with _ | o <;> rcases x with _ | x <;>
    simp [TagFilterType.And, TagFilterType.Or, TagFilterType.Not] at hc <;>
    simp [validateFilter] <;> (subst hc; exact h)

theorem validateFilter_of_node {t n : TagFilterType} (hn : TagFilterType.Node t n)
    (h : 2 ≤ n.populated) : (validateFilter t).isSome := by
  induction hn with
  | root t =>
    obtain ⟨e, he, _⟩ := validateFilter_rejects_here h
    simp [he]
  | viaAnd ha _ ih => exact validateFilter_of_child (Or.inl ha) (ih h)
  | viaOr ho _ ih => exact validateFilter_of_child (Or.inr (Or.inl ho)) (ih h)
  | viaNot hx _ ih => exact validateFilter_of_child (Or.inr (Or.inr hx)) (ih h)

theorem rejectsWith_illegal {n : TagFilterType} {e : GoError} (h : RejectsWith n e) :
    ∃ a b, e = GoError.illegalFilterCombination a b := by
  rcases h with ⟨_, _, h⟩ | ⟨_, _, _, h⟩ | ⟨_, _, _, h⟩ <;> exact ⟨_, _, h⟩


/-- C1: `validateFilter` returns an illegal-filter-combination error exactly
when some node of the tree, the root or a node reached through `And`, `Or`
and `Not` links, has two or more combinators populated, and it returns nil
exactly when every node has at most one of them populated. -/
theorem validateFilter_error_iff (t : TagFilterType) :
    ((∃ a b, validateFilter t = some (GoError.illegalFilterCombination a b)) ↔
      ∃ n, TagFilterType.Node t n ∧ 2 ≤ n.populated) ∧
    (validateFilter t = none ↔ ∀ n, TagFilterType.Node t n → n.populated ≤ 1) := by
  refine ⟨⟨?_, ?_⟩, ⟨?_, ?_⟩⟩
  · rintro ⟨a, b, h⟩
    obtain ⟨n, hd, hr⟩ := validateFilter_some t _ h
    exact ⟨n, descent_node hd, rejectsWith_populated hr⟩
  · rintro ⟨n, hn, hp⟩
    have hs := validateFilter_of_node hn hp
    obtain ⟨e, he⟩ := Option.isSome_iff_exists.mp hs
    obtain ⟨m, _, hr⟩ := validateFilter_some t e he
    obtain ⟨a, b, hab⟩ := rejectsWith_illegal hr
    exact ⟨a, b, hab ▸ he⟩
  · intro h n hn
    by_contra hp
    have hs := validateFilter_of_node hn (by omega)
    simp [h] at hs
  · intro h
    cases hv : validateFilter t with
    | none => rfl
    | some e =>
      obtain ⟨n, hd, hr⟩ := validateFilter_some t e hv
      have h1 := h n (descent_node hd)
      have h2 := rejectsWith_populated hr
      omega

/-- C2: when `validateFilter` returns an error, it has descended to a node
with two combinators populated, and the error is
`illegalFilterCombination("AND","OR")` when `And` and `Or` are populated
there, `illegalFilterCombination("AND","NOT")` when `And` and `Not` are and
`Or` is not, and `illegalFilterCombination("OR","NOT")` when `Or` and `Not`
are and `And` is not; the two combinators it names are populated at that
node. -/
theorem validateFilter_error_names (t : TagFilterType) (e : GoError)
    (h : validateFilter t = some e) :
    ∃ n, Descent t n ∧ 2 ≤ n.populated ∧ validateFilter n = some e ∧
      (n.And.isSome → n.Or.isSome → e = GoError.illegalFilterCombination "AND" "OR") ∧
      (n.And.isSome → n.Or = none → n.Not.isSome →
        e = GoError.illegalFilterCombination "AND" "NOT") ∧
      (n.And = none → n.Or.isSome → n.Not.isSome →
        e = GoError.illegalFilterCombination "OR" "NOT") ∧
      ∃ a b, e = GoError.illegalFilterCombination a b ∧ a ≠ b ∧
        (n.combinator a).isSome ∧ (n.combinator b).isSome := by
  obtain ⟨n, hd, hr⟩ := validateFilter_some t e h
  refine ⟨n, hd, rejectsWith_populated hr, ?_, ?_⟩
  · obtain ⟨e2, he2, hr2⟩ := validateFilter_rejects_here (rejectsWith_populated hr)
    rcases hr with ⟨h1, h2, h3⟩ | ⟨h1, h2, h3, h4⟩ | ⟨h1, h2, h3, h4⟩ <;>
      rcases hr2 with ⟨k1, k2, k3⟩ | ⟨k1, k2, k3, k4⟩ | ⟨k1, k2, k3, k4⟩ <;>
      simp_all
  · rcases hr with ⟨h1, h2, h3⟩ | ⟨h1, h2, h3, h4⟩ | ⟨h1, h2, h3, h4⟩
    · refine ⟨fun _ _ => h3, ?_, ?_, "AND", "OR", h3, by decide, ?_, ?_⟩
      · intro _ k; simp [k] at h2
      · intro k; simp [k] at h1
      · simpa [TagFilterType.combinator] using h1
      · simpa [TagFilterType.combinator] using h2
    · refine ⟨?_, fun _ _ _ => h4, ?_, "AND", "NOT", h4, by decide, ?_, ?_⟩
      · intro _ k; simp [h2] at k
      · intro k; simp [k] at h1
      · simpa [TagFilterType.combinator] using h1
      · simpa [TagFilterType.combinator] using h3
    · refine ⟨?_, ?_, fun _ _ _ => h4, "OR", "NOT", h4, by decide, ?_, ?_⟩
      · intro k; simp [h1] at k
      · intro k; simp [h1] at k
      · simpa [TagFilterType.combinator] using h2
      · simpa [TagFilterType.combinator] using h3

/-- Witness of C2: a root with `And` and `Not` populated. -/
theorem validateFilter_error_names_witness :
    validateFilter (.mk (some .empty) none (some .empty) none none none none none) =
      some (GoError.illegalFilterCombination "AND" "NOT") ∧
    ∃ n, Descent (.mk (some .empty) none (some .empty) none none none none none) n ∧
      2 ≤ n.populated ∧
      validateFilter n = some (GoError.illegalFilterCombination "AND" "NOT") ∧
      (n.And.isSome → n.Or.isSome →
        GoError.illegalFilterCombination "AND" "NOT" =
          GoError.illegalFilterCombination "AND" "OR") ∧
      (n.And.isSome → n.Or = none → n.Not.isSome →
        GoError.illegalFilterCombination "AND" "NOT" =
          GoError.illegalFilterCombination "AND" "NOT") ∧
      (n.And = none → n.Or.isSome → n.Not.isSome →
        GoError.illegalFilterCombination "AND" "NOT" =
          GoError.illegalFilterCombination "OR" "NOT") ∧
      ∃ a b, GoError.illegalFilterCombination "AND" "NOT" =
          GoError.illegalFilterCombination a b ∧ a ≠ b ∧
        (n.combinator a).isSome ∧ (n.combinator b).isSome :=
  ⟨by decide,
    validateFilter_error_names (.mk (some .empty) none (some .empty) none none none none none)
      (GoError.illegalFilterCombination "AND" "NOT") (by decide)⟩

/-! ## `Query`: validation comes after the body and the search clause -/

/-- C3, counterexample: with `And` and `Or` populated at the root and the
search term `x`, `Query` returns the validation error while its builder
already holds the base body, the search clause and the search arg, none of
which a fresh builder has. -/
theorem Query_rejection_builder_not_fresh :
    validateFilter (.mk (some .empty) (some .empty) none none none none none none) =
      some (GoError.illegalFilterCombination "AND" "OR") ∧
    Query memHelpers memTx
        (some (.mk (some .empty) (some .empty) none none none none none none))
        (some ⟨some "x", none, none, none, none⟩)
        (⟨[], [], [], [], []⟩ : MemStore) =
      some ⟨[], 0, some (GoError.illegalFilterCombination "AND" "OR"),
        ⟨"SELECT DISTINCT tags.id FROM tags", [], ["(tags.name LIKE ?)"], [],
          [Arg.str "%x%"], ""⟩⟩ ∧
    newQuery.body ≠ "SELECT DISTINCT tags.id FROM tags" ∧
    newQuery.whereClauses ≠ ["(tags.name LIKE ?)"] ∧
    newQuery.args ≠ [Arg.str "%x%"] := by
  refine ⟨by decide, by decide, by decide, by decide, by decide⟩

/-- C3, amended: when `validateFilter` rejects the tag filter, `Query`
returns the validation error with no tags and count zero, whatever the store
would answer. The builder then is the fresh builder with the base body set
and, when the search term `Q` is non-empty, with the search clause and the
search args added; it has no join, no HAVING fragment and no sort or
pagination, and for a nil or empty `Q` no WHERE fragment and no arg. -/
theorem Query_validation_error {σ : Type} (h : sqlHelpers) (tx : dbi σ)
    (tagFilter : TagFilterType) (findFilter : Option FindFilterType) (s : σ) (err : GoError)
    (hv : validateFilter tagFilter = some err) :
    ∃ r, Query h tx (some tagFilter) findFilter s = some r ∧
      r.tags = [] ∧ r.count = 0 ∧ r.err = some err ∧
      r.query.body = h.selectDistinctIDs "tags" ∧
      r.query.joins = [] ∧ r.query.havingClauses = [] ∧ r.query.sortAndPagination = "" ∧
      (∀ q, (findFilter.bind fun ff => ff.Q) = some q → q ≠ "" →
        r.query =
          (queryBuilder.addWhere { newQuery with body := h.selectDistinctIDs "tags" }
            (h.getSearchBinding ["tags.name"] q false).1).addArg
            (h.getSearchBinding ["tags.name"] q false).2) ∧
      (((findFilter.bind fun ff => ff.Q) = none ∨ (findFilter.bind fun ff => ff.Q) = some "") →
        r.query = { newQuery with body := h.selectDistinctIDs "tags" } ∧
        r.query.whereClauses = [] ∧ r.query.args = []) := by
  refine ⟨⟨[], 0, some err, Query.start h (match findFilter with
    | none => FindFilterType.empty
    | some ff => ff)⟩, by simp only [Query, hv], rfl, rfl, rfl, ?_⟩
  rcases findFilter with _ | ⟨Q, pg, pp, so, di⟩
  · simp [Query.start, FindFilterType.empty, newQuery, tagTable]
  · rcases Q with _ | q
    · simp [Query.start, newQuery, tagTable]
    · by_cases hq : q = ""
      · subst hq
        simp [Query.start, newQuery, tagTable]
      · simp [Query.start, newQuery, tagTable, hq, queryBuilder.addWhere, queryBuilder.addArg]

/-- Witness of the amended C3: `Or` and `Not` populated at the root, search
term `x`. -/
theorem Query_validation_error_witness :
    validateFilter (.mk none (some .empty) (some .empty) none none none none none) =
      some (GoError.illegalFilterCombination "OR" "NOT") ∧
    Query memHelpers memTx
        (some (.mk none (some .empty) (some .empty) none none none none none))
        (some ⟨some "x", none, none, none, none⟩) (⟨[], [], [], [], []⟩ : MemStore) =
      some ⟨[], 0, some (GoError.illegalFilterCombination "OR" "NOT"),
        ⟨"SELECT DISTINCT tags.id FROM tags", [], ["(tags.name LIKE ?)"], [],
          [Arg.str "%x%"], ""⟩⟩ ∧
    ∃ r, Query memHelpers memTx
        (some (.mk none (some .empty) (some .empty) none none none none none))
        (some ⟨some "x", none, none, none, none⟩) (⟨[], [], [], [], []⟩ : MemStore) = some r ∧
      r.tags = [] ∧ r.count = 0 ∧ r.err = some (GoError.illegalFilterCombination "OR" "NOT") ∧
      r.query.body = memHelpers.selectDistinctIDs "tags" ∧
      r.query.joins = [] ∧ r.query.havingClauses = [] ∧ r.query.sortAndPagination = "" ∧
      (∀ q, ((some (⟨some "x", none, none, none, none⟩ : FindFilterType)).bind fun ff => ff.Q) =
          some q → q ≠ "" →
        r.query =
          (queryBuilder.addWhere { newQuery with body := memHelpers.selectDistinctIDs "tags" }
            (memHelpers.getSearchBinding ["tags.name"] q false).1).addArg
            (memHelpers.getSearchBinding ["tags.name"] q false).2) ∧
      ((((some (⟨some "x", none, none, none, none⟩ : FindFilterType)).bind fun ff => ff.Q) = none ∨
          ((some (⟨some "x", none, none, none, none⟩ : FindFilterType)).bind fun ff => ff.Q) =
            some "") →
        r.query = { newQuery with body := memHelpers.selectDistinctIDs "tags" } ∧
        r.query.whereClauses = [] ∧ r.query.args = []) :=
  ⟨by decide, by decide,
    Query_validation_error memHelpers memTx
      (.mk none (some .empty) (some .empty) none none none none none)
      (some ⟨some "x", none, none, none, none⟩) ⟨[], [], [], [], []⟩
      (GoError.illegalFilterCombination "OR" "NOT") (by decide)⟩

/-! ## `Destroy`: the association rows go before the primary-tag check -/

/-- C4, counterexample: tag 1 is the primary tag of scene marker 9 and is
also attached to scene 5 and to marker 9. `Destroy` returns the domain
error, yet by then it has run both association deletes: the rows of
`scenes_tags` and `scene_markers_tags` are gone. -/
theorem Destroy_deletes_before_check :
    Destroy memTx 1 ⟨[⟨1, "a"⟩], [(5, 1)], [(9, 1)], [(9, 1)], []⟩ =
      (⟨[⟨1, "a"⟩], [], [], [(9, 1)],
          ["DELETE FROM scenes_tags WHERE tag_id = ?",
            "DELETE FROM scene_markers_tags WHERE tag_id = ?"]⟩,
        some (GoError.New "Cannot delete tag used as a primary tag in scene markers")) := by
  decide

/-- C4, amended: for a tag that is the primary tag of at least one scene
marker, when the two association deletes and the count statement succeed,
`Destroy` fails with the domain error before the tag itself is deleted: the
store is left as the two association deletes (on `scenes_tags`, then on
`scene_markers_tags`) made it, and `destroyExisting` has not run. -/
theorem Destroy_primary_tag {σ : Type} (tx : dbi σ) (id : Int) (s s1 s2 : σ)
    (primaryMarkers : Int)
    (h1 : tx.Exec "DELETE FROM scenes_tags WHERE tag_id = ?" [Arg.int id] s = (s1, none))
    (h2 : tx.Exec "DELETE FROM scene_markers_tags WHERE tag_id = ?" [Arg.int id] s1 = (s2, none))
    (h3 : tx.runCountQuery
        "SELECT COUNT(*) as count FROM scene_markers where primary_tag_id = ?" [Arg.int id] s2 =
      .ok primaryMarkers)
    (hp : primaryMarkers > 0) :
    Destroy tx id s =
      (s2, some (GoError.New "Cannot delete tag used as a primary tag in scene markers")) := by
  simp only [Destroy, h1, h2, h3, hp, if_true]

/-- Witness of the amended C4. -/
theorem Destroy_primary_tag_witness :
    memTx.Exec "DELETE FROM scenes_tags WHERE tag_id = ?" [Arg.int 1]
        ⟨[⟨1, "a"⟩], [(5, 1)], [], [(9, 1)], []⟩ =
      (⟨[⟨1, "a"⟩], [], [], [(9, 1)], ["DELETE FROM scenes_tags WHERE tag_id = ?"]⟩, none) ∧
    Destroy memTx 1 ⟨[⟨1, "a"⟩], [(5, 1)], [], [(9, 1)], []⟩ =
      (⟨[⟨1, "a"⟩], [], [], [(9, 1)],
          ["DELETE FROM scenes_tags WHERE tag_id = ?",
            "DELETE FROM scene_markers_tags WHERE tag_id = ?"]⟩,
        some (GoError.New "Cannot delete tag used as a primary tag in scene markers")) :=
  ⟨by decide,
    Destroy_primary_tag memTx 1 ⟨[⟨1, "a"⟩], [(5, 1)], [], [(9, 1)], []⟩
      ⟨[⟨1, "a"⟩], [], [], [(9, 1)], ["DELETE FROM scenes_tags WHERE tag_id = ?"]⟩
      ⟨[⟨1, "a"⟩], [], [], [(9, 1)],
        ["DELETE FROM scenes_tags WHERE tag_id = ?",
          "DELETE FROM scene_markers_tags WHERE tag_id = ?"]⟩
      1 (by decide) (by decide) (by rfl) (by decide)⟩

/-! ## `FindMany` -/

/-- The loop of `FindMany` over ids that all resolve appends the resolved
tags, in order. -/
theorem FindMany_loop_resolved {σ : Type} (tx : dbi σ) (s : σ) :
    ∀ (ids : List Int) (acc : List Tag),
      (∀ id ∈ ids, ∃ tag, Find tx id s = .ok (some tag)) →
      ∃ tags, FindMany.loop tx s ids acc = .ok (acc ++ tags) ∧
        tags.length = ids.length ∧
        ids.map (fun id => Find tx id s) = tags.map (fun tag => .ok (some tag))
  | [], acc, _ => ⟨[], by simp [FindMany.loop], rfl, rfl⟩
  | id :: rest, acc, hall => by
    obtain ⟨tag, htag⟩ := hall id (List.mem_cons_self _ _)
    obtain ⟨tags, hl, hlen, hmap⟩ :=
      FindMany_loop_resolved tx s rest (acc ++ [tag])
        (fun x hx => hall x (List.mem_cons_of_mem _ hx))
    refine ⟨tag :: tags, ?_, by simp [hlen], by simp [htag, hmap]⟩
    simp only [FindMany.loop, htag, hl, List.append_assoc, List.singleton_append]

/-- The loop of `FindMany` stops at the first id that resolves to no tag,
with the error naming it. -/
theorem FindMany_loop_missing {σ : Type} (tx : dbi σ) (s : σ) :
    ∀ (pre : List Int) (id : Int) (post : List Int) (acc : List Tag),
      (∀ x ∈ pre, ∃ tag, Find tx x s = .ok (some tag)) →
      Find tx id s = .ok none →
      FindMany.loop tx s (pre ++ id :: post) acc =
        .error (GoError.New ("tag with id " ++ toString id ++ " not found"))
  | [], id, post, acc, _, hid => by
    simp only [List.nil_append, FindMany.loop, hid]
  | x :: pre, id, post, acc, hpre, hid => by
    obtain ⟨tag, htag⟩ := hpre x (List.mem_cons_self _ _)
    simp only [List.cons_append, FindMany.loop, htag]
    exact FindMany_loop_missing tx s pre id post (acc ++ [tag])
      (fun y hy => hpre y (List.mem_cons_of_mem _ hy)) hid

/-- A list with an element satisfying `p` splits at the first such
element. -/
theorem split_at_first {α : Type} (p : α → Prop) [DecidablePred p] :
    ∀ (l : List α), (∃ x ∈ l, p x) →
      ∃ pre x post, l = pre ++ x :: post ∧ (∀ y ∈ pre, ¬ p y) ∧ p x
  | [], h => by simp at h
  | a :: l, h => by
    by_cases ha : p a
    · exact ⟨[], a, l, rfl, by simp, ha⟩
    · have h2 : ∃ x ∈ l, p x := by
        obtain ⟨x, hx, hpx⟩ := h
        rcases List.mem_cons.mp hx with rfl | hx
        · exact absurd hpx ha
        · exact ⟨x, hx, hpx⟩
      obtain ⟨pre, x, post, hl, hpre, hx⟩ := split_at_first p l h2
      refine ⟨a :: pre, x, post, by simp [hl], ?_, hx⟩
      intro y hy
      rcases List.mem_cons.mp hy with rfl | hy
      · exact ha
      · exact hpre y hy

/-- C5: when every id of the list resolves to a tag, `FindMany` succeeds
with a list as long as `ids` whose i-th element is the tag `Find` returns for
the i-th id, order and duplicates kept. -/
theorem FindMany_all_resolved {σ : Type} (tx : dbi σ) (s : σ) (ids : List Int)
    (hall : ∀ id ∈ ids, ∃ tag, Find tx id s = .ok (some tag)) :
    ∃ tags, FindMany tx ids s = .ok tags ∧ tags.length = ids.length ∧
      ids.map (fun id => Find tx id s) = tags.map (fun tag => .ok (some tag)) := by
  obtain ⟨tags, hl, hlen, hmap⟩ := FindMany_loop_resolved tx s ids [] hall
  exact ⟨tags, by simpa [FindMany] using hl, hlen, hmap⟩

/-- Witness of C5: ids `[2, 1, 2]` over a store holding tags 1 and 2. -/
theorem FindMany_all_resolved_witness :
    (∀ id ∈ [2, 1, 2], ∃ tag,
      Find memTx id ⟨[⟨1, "a"⟩, ⟨2, "b"⟩], [], [], [], []⟩ = .ok (some tag)) ∧
    ∃ tags, FindMany memTx [2, 1, 2] ⟨[⟨1, "a"⟩, ⟨2, "b"⟩], [], [], [], []⟩ = .ok tags ∧
      tags.length = [2, 1, 2].length ∧
      [2, 1, 2].map (fun id => Find memTx id ⟨[⟨1, "a"⟩, ⟨2, "b"⟩], [], [], [], []⟩) =
        tags.map (fun tag => .ok (some tag)) :=
  have hall : ∀ id ∈ [2, 1, 2], ∃ tag,
      Find memTx id ⟨[⟨1, "a"⟩, ⟨2, "b"⟩], [], [], [], []⟩ = .ok (some tag) := by
    intro id hid
    simp only [List.mem_cons, List.mem_singleton, List.not_mem_nil, or_false] at hid
    rcases hid with rfl | rfl | rfl
    · exact ⟨⟨2, "b"⟩, rfl⟩
    · exact ⟨⟨1, "a"⟩, rfl⟩
    · exact ⟨⟨2, "b"⟩, rfl⟩
  ⟨hall, FindMany_all_resolved memTx _ [2, 1, 2] hall⟩

/-- C6: when `Find` returns no error for any id of the list and returns no
tag for at least one, `FindMany` returns no list and the error
`tag with id %d not found` formatted with the first id, in list order, that
resolves to no tag. -/
theorem FindMany_missing {σ : Type} (tx : dbi σ) (s : σ) (ids : List Int)
    (hok : ∀ id ∈ ids, ∃ r, Find tx id s = .ok r)
    (hmiss : ∃ id ∈ ids, Find tx id s = .ok none) :
    ∃ pre id post, ids = pre ++ id :: post ∧
      (∀ x ∈ pre, ∃ tag, Find tx x s = .ok (some tag)) ∧
      Find tx id s = .ok none ∧
      FindMany tx ids s =
        .error (GoError.New ("tag with id " ++ toString id ++ " not found")) := by
  classical
  obtain ⟨pre, id, post, hl, hpre, hid⟩ :=
    split_at_first (fun id => Find tx id s = .ok none) ids hmiss
  have hpre2 : ∀ x ∈ pre, ∃ tag, Find tx x s = .ok (some tag) := by
    intro x hx
    obtain ⟨r, hr⟩ := hok x (by simp [hl, hx])
    rcases r with _ | tag
    · exact absurd hr (hpre x hx)
    · exact ⟨tag, hr⟩
  refine ⟨pre, id, post, hl, hpre2, hid, ?_⟩
  rw [FindMany, hl]
  exact FindMany_loop_missing tx s pre id post [] hpre2 hid

/-- Witness of C6: ids `[1, 7, 8]` over a store holding tag 1 only. -/
theorem FindMany_missing_witness :
    (∀ id ∈ [1, 7, 8], ∃ r, Find memTx id ⟨[⟨1, "a"⟩], [], [], [], []⟩ = .ok r) ∧
    (∃ id ∈ [1, 7, 8], Find memTx id ⟨[⟨1, "a"⟩], [], [], [], []⟩ = .ok none) ∧
    FindMany memTx [1, 7, 8] ⟨[⟨1, "a"⟩], [], [], [], []⟩ =
      .error (GoError.New "tag with id 7 not found") ∧
    ∃ pre id post, [1, 7, 8] = pre ++ id :: post ∧
      (∀ x ∈ pre, ∃ tag, Find memTx x ⟨[⟨1, "a"⟩], [], [], [], []⟩ = .ok (some tag)) ∧
      Find memTx id ⟨[⟨1, "a"⟩], [], [], [], []⟩ = .ok none ∧
      FindMany memTx [1, 7, 8] ⟨[⟨1, "a"⟩], [], [], [], []⟩ =
        .error (GoError.New ("tag with id " ++ toString id ++ " not found")) :=
  have hok : ∀ id ∈ [1, 7, 8], ∃ r, Find memTx id ⟨[⟨1, "a"⟩], [], [], [], []⟩ = .ok r := by
    intro id hid
    simp only [List.mem_cons, List.mem_singleton, List.not_mem_nil, or_false] at hid
    rcases hid with rfl | rfl | rfl
    · exact ⟨some ⟨1, "a"⟩, rfl⟩
    · exact ⟨none, rfl⟩
    · exact ⟨none, rfl⟩
  have hmiss : ∃ id ∈ [1, 7, 8], Find memTx id ⟨[⟨1, "a"⟩], [], [], [], []⟩ = .ok none :=
    ⟨7, by simp, rfl⟩
  ⟨hok, hmiss, rfl, FindMany_missing memTx _ [1, 7, 8] hok hmiss⟩

/-! ## `Query`: hydration -/

/-- The hydration loop of `Query` over ids whose `Find` calls all succeed
appends one entry per id, in order, absent tags included. -/
theorem Query_loop_ok {σ : Type} (tx : dbi σ) (s : σ) :
    ∀ (ids : List Int) (acc : List (Option Tag)),
      (∀ id ∈ ids, ∃ tag, Find tx id s = .ok tag) →
      ∃ tags, Query.loop tx s ids acc = .ok (acc ++ tags) ∧
        tags.length = ids.length ∧
        ids.map (fun id => Find tx id s) = tags.map (fun tag => .ok tag)
  | [], acc, _ => ⟨[], by simp [Query.loop], rfl, rfl⟩
  | id :: rest, acc, hall => by
    obtain ⟨tag, htag⟩ := hall id (List.mem_cons_self _ _)
    obtain ⟨tags, hl, hlen, hmap⟩ :=
      Query_loop_ok tx s rest (acc ++ [tag]) (fun x hx => hall x (List.mem_cons_of_mem _ hx))
    refine ⟨tag :: tags, ?_, by simp [hlen], by simp [htag, hmap]⟩
    simp only [Query.loop, htag, hl, List.append_assoc, List.singleton_append]

/-- The sort of a non-nil find filter is always resolved: `getTagSort` does
not panic on it. -/
theorem getTagSort_some (h : sqlHelpers) (query : queryBuilder) (ff : FindFilterType) :
    ∃ p, getTagSort h query (some ff) = some p := by
  simp only [getTagSort]
  split
  · split_ifs <;> exact ⟨_, rfl⟩
  · exact ⟨_, rfl⟩

/-- `Query` always builds a query for `executeFind`. -/
theorem Query_built_some (h : sqlHelpers) (tagFilter : Option TagFilterType)
    (findFilter : Option FindFilterType) : ∃ q, Query.built h tagFilter findFilter = some q := by
  simp only [Query.built]
  obtain ⟨p, hp⟩ := getTagSort_some h
    ((Query.start h (match findFilter with
      | none => FindFilterType.empty
      | some ff => ff)).addFilter h (makeFilter h (match tagFilter with
      | none => TagFilterType.empty
      | some t => t)))
    (match findFilter with
      | none => FindFilterType.empty
      | some ff => ff)
  rw [hp]
  exact ⟨_, rfl⟩

/-- C7: when validation passes, `executeFind` succeeds on the built query
with the id list `ids` and the count `count`, and every `Find` call
succeeds, `Query` returns no error, the count of `executeFind`, and exactly
one entry per id, in the order of `ids`, the i-th entry being what
`Find` returns for the i-th id; an absent tag is kept as an absent entry, so
the list is as long as `ids`. -/
theorem Query_hydration {σ : Type} (h : sqlHelpers) (tx : dbi σ)
    (tagFilter : Option TagFilterType) (findFilter : Option FindFilterType) (s : σ)
    (q : queryBuilder) (ids : List Int) (count : Int)
    (hv : validateFilter (match tagFilter with
      | none => TagFilterType.empty
      | some t => t) = none)
    (hq : Query.built h tagFilter findFilter = some q)
    (hexec : tx.executeFind q s = .ok (ids, count))
    (hfind : ∀ id ∈ ids, ∃ tag, Find tx id s = .ok tag) :
    ∃ r, Query h tx tagFilter findFilter s = some r ∧
      r.err = none ∧ r.count = count ∧ r.query = q ∧
      r.tags.length = ids.length ∧
      ids.map (fun id => Find tx id s) = r.tags.map (fun tag => .ok tag) := by
  obtain ⟨tags, hl, hlen, hmap⟩ := Query_loop_ok tx s ids [] hfind
  simp only [List.nil_append] at hl
  refine ⟨⟨tags, count, none, q⟩, ?_, rfl, rfl, rfl, hlen, hmap⟩
  simp only [Query.built] at hq
  simp only [Query, hv]
  split at hq
  · exact absurd hq (by simp)
  · rename_i q2 sort hts
    simp only [Option.some.injEq] at hq
    simp only [hts, hq, hexec, hl]

/-- Witness of C7: tag 2 is in the id list of the store but `get` finds no
row for it, and the hydrated list keeps an absent entry for it. -/
theorem Query_hydration_witness :
    ∃ r, Query memHelpers
        { memTx with executeFind := fun _ _ => .ok ([1, 2, 1], 3) }
        none none (⟨[⟨1, "a"⟩], [], [], [], []⟩ : MemStore) = some r ∧
      r.err = none ∧ r.count = 3 ∧
      r.query = ⟨"SELECT DISTINCT tags.id FROM tags", [], [], [], [],
        " ORDER BY tags.name ASC LIMIT 25 OFFSET 0 "⟩ ∧
      r.tags.length = [1, 2, 1].length ∧
      [1, 2, 1].map (fun id =>
          Find { memTx with executeFind := fun _ _ => .ok ([1, 2, 1], 3) } id
            (⟨[⟨1, "a"⟩], [], [], [], []⟩ : MemStore)) =
        r.tags.map (fun tag => .ok tag) :=
  Query_hydration memHelpers { memTx with executeFind := fun _ _ => .ok ([1, 2, 1], 3) }
    none none ⟨[⟨1, "a"⟩], [], [], [], []⟩
    ⟨"SELECT DISTINCT tags.id FROM tags", [], [], [], [],
      " ORDER BY tags.name ASC LIMIT 25 OFFSET 0 "⟩
    [1, 2, 1] 3 (by decide) (by decide) rfl
    (by
      intro id hid
      simp only [List.mem_cons, List.mem_singleton, List.not_mem_nil, or_false] at hid
      rcases hid with rfl | rfl | rfl
      · exact ⟨some ⟨1, "a"⟩, rfl⟩
      · exact ⟨none, rfl⟩
      · exact ⟨some ⟨1, "a"⟩, rfl⟩)

/-! ## `Query`: a blank search term -/

/-- C8: a find filter whose search term `Q` points to the empty string adds
no search clause and no search arg, and `Query` then builds the same query
and returns the same result as with `Q` nil and all other fields equal. -/
theorem Query_blank_search {σ : Type} (h : sqlHelpers) (tx : dbi σ)
    (tagFilter : Option TagFilterType) (ff : FindFilterType) (s : σ) :
    (Query.start h { ff with Q := some "" }).whereClauses = [] ∧
    (Query.start h { ff with Q := some "" }).args = [] ∧
    Query.built h tagFilter (some { ff with Q := some "" }) =
      Query.built h tagFilter (some { ff with Q := none }) ∧
    Query h tx tagFilter (some { ff with Q := some "" }) s =
      Query h tx tagFilter (some { ff with Q := none }) s := by
  have hs : Query.start h { ff with Q := some "" } = Query.start h { ff with Q := none } := by
    simp [Query.start]
  have ht : ∀ query, getTagSort h query (some { ff with Q := some "" }) =
      getTagSort h query (some { ff with Q := none }) := by
    intro query
    simp [getTagSort, FindFilterType.GetSort, FindFilterType.GetDirection]
  refine ⟨by simp [Query.start, newQuery], by simp [Query.start, newQuery], ?_, ?_⟩
  · simp only [Query.built, hs, ht]
  · simp only [Query, hs, ht]

/-! ## The join registry -/

theorem joins_add_mem {js : joins} {j x : join} (h : x ∈ js.add j) : x ∈ js ∨ x = j := by
  unfold joins.add at h
  split_ifs at h
  · exact Or.inl h
  · rcases List.mem_append.mp h with h | h
    · exact Or.inl h
    · exact Or.inr (by simpa using h)

theorem joins_add_nodup {js : joins} (j : join) (h : (js.map join.identity).Nodup) :
    ((js.add j).map join.identity).Nodup := by
  unfold joins.add
  split_ifs with hany
  · exact h
  · rw [List.map_append, List.nodup_append]
    refine ⟨h, by simp, ?_⟩
    intro k hk hk2
    simp only [List.map_cons, List.map_nil, List.mem_singleton] at hk2
    subst hk2
    apply hany
    obtain ⟨o, ho, hoj⟩ := List.mem_map.mp hk
    exact List.any_eq_true.mpr ⟨o, ho, by simpa using hoj⟩

theorem joins_add_has (js : joins) (j : join) :
    ∃ x ∈ js.add j, x.identity = j.identity := by
  unfold joins.add
  split_ifs with hany
  · obtain ⟨o, ho, hoj⟩ := List.any_eq_true.mp hany
    exact ⟨o, ho, by simpa using hoj⟩
  · exact ⟨j, by simp, rfl⟩

theorem joins_addAll_mem : ∀ (l : List join) (js : joins) (x : join),
    x ∈ js.addAll l → x ∈ js ∨ x ∈ l
  | [], js, x, h => Or.inl (by simpa [joins.addAll] using h)
  | j :: l, js, x, h => by
    have h2 : x ∈ joins.addAll (js.add j) l := by simpa [joins.addAll] using h
    rcases joins_addAll_mem l (js.add j) x h2 with h3 | h3
    · rcases joins_add_mem h3 with h4 | h4
      · exact Or.inl h4
      · exact Or.inr (by simp [h4])
    · exact Or.inr (List.mem_cons_of_mem _ h3)

theorem joins_addAll_nodup : ∀ (l : List join) (js : joins),
    (js.map join.identity).Nodup → ((js.addAll l).map join.identity).Nodup
  | [], js, h => by simpa [joins.addAll] using h
  | j :: l, js, h => by
    have h2 := joins_addAll_nodup l (js.add j) (joins_add_nodup j h)
    simpa [joins.addAll] using h2

/-- In a registry without two joins of one identity, the joins of the
identity of a registered join are that join alone. -/
theorem joins_filter_identity : ∀ (js : joins) (x : join),
    (js.map join.identity).Nodup → x ∈ js →
    js.filter (fun j => decide (j.identity = x.identity)) = [x]
  | [], x, _, hx => by simp at hx
  | j :: js, x, hnd, hx => by
    simp only [List.map_cons, List.nodup_cons] at hnd
    rcases List.mem_cons.mp hx with rfl | hx
    · have hnone : js.filter (fun j => decide (j.identity = x.identity)) = [] := by
        rw [List.filter_eq_nil_iff]
        intro y hy hyx
        exact hnd.1 (List.mem_map.mpr ⟨y, hy, by simpa using hyx⟩)
      simp [List.filter_cons, hnone]
    · have hne : ¬ j.identity = x.identity := by
        intro hjx
        exact hnd.1 (List.mem_map.mpr ⟨x, hx, hjx.symm⟩)
      simp [List.filter_cons, hne, joins_filter_identity js x hnd.2 hx]

theorem TagAssociation.join_identity (a : TagAssociation) : a.join.identity = a.table := by
  cases a <;> decide

theorem knownJoin_of_identity {j : join} (a : TagAssociation) (hk : KnownJoin j)
    (hi : j.identity = a.table) : j = a.join := by
  rcases hk with rfl | ⟨b, rfl⟩
  · cases a <;> exact absurd hi (by decide)
  · cases a <;> cases b <;> first | rfl | exact absurd hi (by decide)

/-! ## The joins a tag filter registers -/

theorem getAllJoins_attach {op : String} {f a : filterBuilder} {j : join}
    (h : j ∈ (filterBuilder.attach op f a).getAllJoins) :
    j ∈ f.getAllJoins ∨ j ∈ a.getAllJoins := by
  rcases f with ⟨sub, o, js, w, hv⟩
  rcases sub with _ | sub
  · simp only [filterBuilder.attach, filterBuilder.getAllJoins, List.mem_append] at h ⊢
    exact h
  · exact Or.inl (by simpa [filterBuilder.attach] using h)

theorem getAllJoins_addJoin {f : filterBuilder} {table as onClause : String} {j : join}
    (h : j ∈ (f.addJoin table as onClause).getAllJoins) :
    j ∈ f.getAllJoins ∨ j = ⟨table, as, onClause⟩ := by
  rcases f with ⟨sub, o, js, w, hv⟩
  rcases sub with _ | sub
  · simp only [filterBuilder.addJoin, filterBuilder.getAllJoins] at h ⊢
    exact joins_add_mem h
  · simp only [filterBuilder.addJoin, filterBuilder.getAllJoins, List.mem_append] at h ⊢
    rcases h with h | h
    · rcases joins_add_mem h with h | h
      · exact Or.inl (Or.inl h)
      · exact Or.inr h
    · exact Or.inl (Or.inr h)

theorem getAllJoins_addWhere (f : filterBuilder) (sql : String) (args : List Arg) :
    (f.addWhere sql args).getAllJoins = f.getAllJoins := by
  rcases f with ⟨sub, o, js, w, hv⟩
  rcases sub with _ | sub <;> simp [filterBuilder.addWhere, filterBuilder.getAllJoins]

theorem getAllJoins_addHaving (f : filterBuilder) (sql : String) (args : List Arg) :
    (f.addHaving sql args).getAllJoins = f.getAllJoins := by
  rcases f with ⟨sub, o, js, w, hv⟩
  rcases sub with _ | sub <;> simp [filterBuilder.addHaving, filterBuilder.getAllJoins]

/-- What each count handler does to a builder, for a criterion that is
set. -/
theorem handler_some (h : sqlHelpers) (a : TagAssociation) (c : IntCriterionInput)
    (f : filterBuilder) :
    a.handler h (some c) f =
      (f.addJoin a.table "" a.onClause).addHaving
        (h.getIntCriterionWhereClause a.countExpr c).1
        (if (h.getIntCriterionWhereClause a.countExpr c).2 = 1 then [Arg.int c.Value] else []) := by
  cases a <;> rfl

theorem handler_none (h : sqlHelpers) (a : TagAssociation) (f : filterBuilder) :
    a.handler h none f = f := by
  cases a <;> rfl

theorem handler_known (h : sqlHelpers) (a : TagAssociation) (c : Option IntCriterionInput)
    (f : filterBuilder) (hf : ∀ j ∈ f.getAllJoins, KnownJoin j) :
    ∀ j ∈ (a.handler h c f).getAllJoins, KnownJoin j := by
  intro j hj
  rcases c with _ | c
  · rw [handler_none] at hj
    exact hf j hj
  · rw [handler_some, getAllJoins_addHaving] at hj
    rcases getAllJoins_addJoin hj with hj | hj
    · exact hf j hj
    · exact Or.inr ⟨a, hj⟩

theorem isMissing_known (isMissing : Option String) (f : filterBuilder)
    (hf : ∀ j ∈ f.getAllJoins, KnownJoin j) :
    ∀ j ∈ (tagIsMissingCriterionHandler isMissing f).getAllJoins, KnownJoin j := by
  intro j hj
  rcases isMissing with _ | m
  · exact hf j hj
  · simp only [tagIsMissingCriterionHandler] at hj
    split_ifs at hj
    · rw [getAllJoins_addWhere] at hj
      rcases getAllJoins_addJoin hj with hj | hj
      · exact hf j hj
      · exact Or.inl (by rw [hj]; decide)
    · rw [getAllJoins_addWhere] at hj
      exact hf j hj
    · exact hf j hj

theorem applyTagCriteria_known (h : sqlHelpers) (query : filterBuilder)
    (isMissing : Option String)
    (sceneCount imageCount galleryCount performerCount : Option IntCriterionInput)
    (hq : ∀ j ∈ query.getAllJoins, KnownJoin j) :
    ∀ j ∈ (applyTagCriteria h query isMissing sceneCount imageCount galleryCount
      performerCount).getAllJoins, KnownJoin j :=
  handler_known h .performers performerCount _
    (handler_known h .galleries galleryCount _
      (handler_known h .images imageCount _
        (handler_known h .scenes sceneCount _ (isMissing_known isMissing query hq))))

theorem attach_known {op : String} {f a : filterBuilder}
    (hf : ∀ j ∈ f.getAllJoins, KnownJoin j) (ha : ∀ j ∈ a.getAllJoins, KnownJoin j) :
    ∀ j ∈ (filterBuilder.attach op f a).getAllJoins, KnownJoin j := by
  intro j hj
  rcases getAllJoins_attach hj with hj | hj
  · exact hf j hj
  · exact ha j hj

theorem empty_known : ∀ j ∈ filterBuilder.empty.getAllJoins, KnownJoin j := by
  intro j hj
  simp [filterBuilder.empty, filterBuilder.getAllJoins] at hj

/-- Every join registered along the builder chain of a tag filter is the
join of the image table or of one of the four associations. -/
theorem makeFilter_known (h : sqlHelpers) :
    ∀ t : TagFilterType, ∀ j ∈ (makeFilter h t).getAllJoins, KnownJoin j
  | .mk none none none m c1 c2 c3 c4 => by
    simp only [makeFilter]
    exact applyTagCriteria_known h _ m c1 c2 c3 c4 empty_known
  | .mk (some a) none none m c1 c2 c3 c4 => by
    simp only [makeFilter]
    exact applyTagCriteria_known h _ m c1 c2 c3 c4
      (attach_known empty_known (makeFilter_known h a))
  | .mk none (some o) none m c1 c2 c3 c4 => by
    simp only [makeFilter]
    exact applyTagCriteria_known h _ m c1 c2 c3 c4
      (attach_known empty_known (makeFilter_known h o))
  | .mk none none (some n) m c1 c2 c3 c4 => by
    simp only [makeFilter]
    exact applyTagCriteria_known h _ m c1 c2 c3 c4
      (attach_known empty_known (makeFilter_known h n))
  | .mk (some a) (some o) none m c1 c2 c3 c4 => by
    simp only [makeFilter]
    exact applyTagCriteria_known h _ m c1 c2 c3 c4
      (attach_known (attach_known empty_known (makeFilter_known h a)) (makeFilter_known h o))
  | .mk (some a) none (some n) m c1 c2 c3 c4 => by
    simp only [makeFilter]
    exact applyTagCriteria_known h _ m c1 c2 c3 c4
      (attach_known (attach_known empty_known (makeFilter_known h a)) (makeFilter_known h n))
  | .mk none (some o) (some n) m c1 c2 c3 c4 => by
    simp only [makeFilter]
    exact applyTagCriteria_known h _ m c1 c2 c3 c4
      (attach_known (attach_known empty_known (makeFilter_known h o)) (makeFilter_known h n))
  | .mk (some a) (some o) (some n) m c1 c2 c3 c4 => by
    simp only [makeFilter]
    exact applyTagCriteria_known h _ m c1 c2 c3 c4
      (attach_known (attach_known (attach_known empty_known (makeFilter_known h a))
        (makeFilter_known h o)) (makeFilter_known h n))

/-! ## One join for a counted association -/

theorem joins_of_addJoin (f : filterBuilder) (table as onClause : String) :
    (f.addJoin table as onClause).joins = f.joins.add ⟨table, as, onClause⟩ := by
  rcases f with ⟨sub, o, js, w, hv⟩
  rfl

theorem handler_joins (h : sqlHelpers) (a : TagAssociation) (c : IntCriterionInput)
    (f : filterBuilder) : (a.handler h (some c) f).joins = f.joins.add a.join := by
  rw [handler_some]
  rcases f with ⟨sub, o, js, w, hv⟩
  rfl

theorem getTagSort_count (h : sqlHelpers) (a : TagAssociation) (query : queryBuilder)
    (ff : FindFilterType) (hs : ff.Sort_ = some a.sortKey) :
    ∃ sort, getTagSort h query (some ff) =
      some ({ query with joins := query.joins.add a.join }, sort) := by
  cases a <;>
    simp [getTagSort, hs, TagAssociation.sortKey, queryBuilder.join, TagAssociation.join,
      TagAssociation.table, TagAssociation.onClause]

theorem Query_start_joins (h : sqlHelpers) (ff : FindFilterType) :
    (Query.start h ff).joins = [] := by
  simp only [Query.start]
  split
  · split_ifs <;> rfl
  · rfl

theorem addFilter_joins (h : sqlHelpers) (qb : queryBuilder) (f : filterBuilder) :
    (qb.addFilter h f).joins = qb.joins.addAll f.getAllJoins := by
  simp only [queryBuilder.addFilter, queryBuilder.addArg]
  split_ifs <;> rfl

/-- C9: for each of the four tag associations, the join registered by the
count criterion handler and the join registered by `getTagSort` for the
matching sort key are the same `(table, empty alias, ON clause)` triple, of
identity the association table; and the query built for a find that sorts
on the association, whatever its filter registers, has no two joins of one
identity and exactly one join of that identity, that triple. -/
theorem count_join_registered_once (h : sqlHelpers) (a : TagAssociation) :
    a.join = ⟨a.table, "", a.onClause⟩ ∧ a.join.identity = a.table ∧
    (∀ (c : IntCriterionInput) (f : filterBuilder),
      (a.handler h (some c) f).joins = f.joins.add a.join) ∧
    (∀ (query : queryBuilder) (ff : FindFilterType), ff.Sort_ = some a.sortKey →
      ∃ sort, getTagSort h query (some ff) =
        some ({ query with joins := query.joins.add a.join }, sort)) ∧
    (∀ (tagFilter : Option TagFilterType) (ff : FindFilterType) (q : queryBuilder),
      ff.Sort_ = some a.sortKey → Query.built h tagFilter (some ff) = some q →
      (q.joins.map join.identity).Nodup ∧
      q.joins.filter (fun j => decide (j.identity = a.table)) = [a.join]) := by
  refine ⟨rfl, a.join_identity, handler_joins h a, getTagSort_count h a, ?_⟩
  intro tagFilter ff q hs hq0
  have hq : Query.built h (some (tagFilter.getD TagFilterType.empty)) (some ff) = some q := by
    cases tagFilter <;> exact hq0
  clear hq0
  generalize tagFilter.getD TagFilterType.empty = t at hq
  simp only [Query.built] at hq
  obtain ⟨sort, hsort⟩ := getTagSort_count h a
    ((Query.start h ff).addFilter h (makeFilter h t)) ff hs
  rw [hsort] at hq
  simp only [Option.some.injEq] at hq
  have hj : q.joins = (joins.addAll [] (makeFilter h t).getAllJoins).add a.join := by
    rw [← hq]
    simp only [addFilter_joins, Query_start_joins]
  have hnd : (q.joins.map join.identity).Nodup := by
    rw [hj]
    exact joins_add_nodup _ (joins_addAll_nodup _ _ (by simp))
  obtain ⟨x, hx, hxi⟩ := joins_add_has (joins.addAll [] (makeFilter h t).getAllJoins) a.join
  rw [← hj] at hx
  have hxk : KnownJoin x := by
    rw [hj] at hx
    rcases joins_add_mem hx with hx | hx
    · rcases joins_addAll_mem _ _ _ hx with hx | hx
      · simp at hx
      · exact makeFilter_known h _ x hx
    · exact Or.inr ⟨a, hx⟩
  rw [a.join_identity] at hxi
  have hxa : x = a.join := knownJoin_of_identity a hxk hxi
  subst hxa
  refine ⟨hnd, ?_⟩
  have := joins_filter_identity q.joins a.join hnd hx
  rwa [a.join_identity] at this

/-- Witness of C9: a find that filters on the scene count, at the root and
under `And`, and sorts on it. -/
theorem count_join_registered_once_witness :
    Query.built memHelpers
        (some (.mk (some (.mk none none none (some "image")
            (some ⟨1, .GREATER_THAN⟩) none none none)) none none none
          (some ⟨5, .LESS_THAN⟩) none none none))
        (some ⟨none, none, none, some "scenes_count", none⟩) =
      some ⟨"SELECT DISTINCT tags.id FROM tags",
        [⟨"scenes_tags", "", "scenes_tags.tag_id = tags.id"⟩,
          ⟨"tags_image", "", "tags_image.tag_id = tags.id"⟩],
        ["tags_image.tag_id IS NULL"],
        ["(count(distinct scenes_tags.scene_id) < ?) AND (count(distinct scenes_tags.scene_id) > ?)"],
        [Arg.int 5, Arg.int 1],
        " ORDER BY COUNT(distinct scenes_tags.scene_id) ASC LIMIT 25 OFFSET 0 "⟩ ∧
    (([⟨"scenes_tags", "", "scenes_tags.tag_id = tags.id"⟩,
          ⟨"tags_image", "", "tags_image.tag_id = tags.id"⟩] : joins).map join.identity).Nodup ∧
    ([⟨"scenes_tags", "", "scenes_tags.tag_id = tags.id"⟩,
        ⟨"tags_image", "", "tags_image.tag_id = tags.id"⟩] : joins).filter
        (fun j => decide (j.identity = TagAssociation.scenes.table)) =
      [TagAssociation.scenes.join] :=
  ⟨by decide,
    (count_join_registered_once memHelpers .scenes).2.2.2.2
      (some (.mk (some (.mk none none none (some "image")
          (some ⟨1, .GREATER_THAN⟩) none none none)) none none none
        (some ⟨5, .LESS_THAN⟩) none none none))
      ⟨none, none, none, some "scenes_count", none⟩
      ⟨"SELECT DISTINCT tags.id FROM tags",
        [⟨"scenes_tags", "", "scenes_tags.tag_id = tags.id"⟩,
          ⟨"tags_image", "", "tags_image.tag_id = tags.id"⟩],
        ["tags_image.tag_id IS NULL"],
        ["(count(distinct scenes_tags.scene_id) < ?) AND (count(distinct scenes_tags.scene_id) > ?)"],
        [Arg.int 5, Arg.int 1],
        " ORDER BY COUNT(distinct scenes_tags.scene_id) ASC LIMIT 25 OFFSET 0 "⟩
      rfl (by decide)⟩

/-! ## The count criterion handlers -/

/-- C10: for a count criterion `c` that is set, each tag count handler
registers the join of its association table once and appends one HAVING
fragment, the clause `getIntCriterionWhereClause` returns for
`count(distinct <assoc>.<related>_id)` and `c`, whose only bound arg is
`c.Value` exactly when `getIntCriterionWhereClause` reports one bound value
and which has no arg otherwise; WHERE fragments and sub-filter are left as
they were. For a nil criterion the handler leaves the builder unchanged. -/
theorem count_handler_effect (h : sqlHelpers) (a : TagAssociation) (c : IntCriterionInput)
    (f : filterBuilder) :
    a.countExpr = "count(distinct " ++ a.table ++ "." ++ a.related ++ ")" ∧
    a.handler h none f = f ∧
    a.handler h (some c) f =
      (f.addJoin a.table "" a.onClause).addHaving
        (h.getIntCriterionWhereClause a.countExpr c).1
        (if (h.getIntCriterionWhereClause a.countExpr c).2 = 1 then [Arg.int c.Value] else []) ∧
    (a.handler h (some c) f).joins = f.joins.add a.join ∧
    ((∀ j ∈ f.joins, j.identity ≠ a.table) →
      (a.handler h (some c) f).joins = f.joins ++ [a.join]) ∧
    (a.handler h (some c) f).havingClauses =
      f.havingClauses ++
        [⟨(h.getIntCriterionWhereClause a.countExpr c).1,
          if (h.getIntCriterionWhereClause a.countExpr c).2 = 1 then [Arg.int c.Value] else []⟩] ∧
    (a.handler h (some c) f).whereClauses = f.whereClauses ∧
    (a.handler h (some c) f).subFilter = f.subFilter ∧
    (a.handler h (some c) f).subFilterOp = f.subFilterOp := by
  refine ⟨by cases a <;> decide, handler_none h a f, handler_some h a c f, handler_joins h a c f,
    ?_, ?_, ?_, ?_, ?_⟩
  · intro hfresh
    rw [handler_joins, joins.add]
    have hany : f.joins.any (fun o => decide (o.identity = a.join.identity)) = false := by
      rw [List.any_eq_false]
      intro x hx
      simpa [a.join_identity] using hfresh x hx
    simp [hany]
  all_goals
    rw [handler_some]
    rcases f with ⟨sub, o, js, w, hv⟩
    rfl

/-! ## The is-missing handler -/

/-- C11: `tagIsMissingCriterionHandler` leaves the builder unchanged for a
nil or empty `isMissing`; for `image` it joins the `tags_image` table on
`tags.id` and adds the WHERE fragment `tags_image.tag_id IS NULL`; for every
other non-empty value `X` it registers no join and adds exactly the WHERE
fragment `(tags.X IS NULL OR TRIM(tags.X) = '')`. In no case does it add a
HAVING fragment or a bound arg. -/
theorem tagIsMissing_effect (f : filterBuilder) :
    tagIsMissingCriterionHandler none f = f ∧
    tagIsMissingCriterionHandler (some "") f = f ∧
    (tagIsMissingCriterionHandler (some "image") f =
        (f.addJoin "tags_image" "" "tags_image.tag_id = tags.id").addWhere
          "tags_image.tag_id IS NULL" [] ∧
      (tagIsMissingCriterionHandler (some "image") f).joins = f.joins.add tagsImageJoin ∧
      (tagIsMissingCriterionHandler (some "image") f).whereClauses =
        f.whereClauses ++ [⟨"tags_image.tag_id IS NULL", []⟩]) ∧
    (∀ X : String, X ≠ "" → X ≠ "image" →
      tagIsMissingCriterionHandler (some X) f =
        f.addWhere ("(tags." ++ X ++ " IS NULL OR TRIM(tags." ++ X ++ ") = '')") [] ∧
      (tagIsMissingCriterionHandler (some X) f).joins = f.joins ∧
      (tagIsMissingCriterionHandler (some X) f).whereClauses =
        f.whereClauses ++
          [⟨"(tags." ++ X ++ " IS NULL OR TRIM(tags." ++ X ++ ") = '')", []⟩]) ∧
    (∀ isMissing : Option String,
      (tagIsMissingCriterionHandler isMissing f).havingClauses = f.havingClauses ∧
      (tagIsMissingCriterionHandler isMissing f).subFilter = f.subFilter ∧
      ∃ added, (tagIsMissingCriterionHandler isMissing f).whereClauses =
          f.whereClauses ++ added ∧ ∀ c ∈ added, c.args = []) := by
  rcases f with ⟨sub, op, js, w, hv⟩
  refine ⟨rfl, by simp [tagIsMissingCriterionHandler], ⟨?_, ?_, ?_⟩, ?_, ?_⟩
  · simp [tagIsMissingCriterionHandler, repositoryJoin, tagIDColumn]
  · simp [tagIsMissingCriterionHandler, repositoryJoin, tagIDColumn, filterBuilder.addJoin,
      filterBuilder.addWhere, filterBuilder.joins, tagsImageJoin]
  · simp [tagIsMissingCriterionHandler, repositoryJoin, tagIDColumn, filterBuilder.addJoin,
      filterBuilder.addWhere, filterBuilder.whereClauses]
  · intro X h1 h2
    simp [tagIsMissingCriterionHandler, h1, h2, filterBuilder.addWhere, filterBuilder.joins,
      filterBuilder.whereClauses]
  · intro isMissing
    rcases isMissing with _ | m
    · exact ⟨rfl, rfl, [], by simp [tagIsMissingCriterionHandler], by simp⟩
    · by_cases h1 : m = ""
      · subst h1
        exact ⟨by simp [tagIsMissingCriterionHandler], by simp [tagIsMissingCriterionHandler],
          [], by simp [tagIsMissingCriterionHandler], by simp⟩
      · by_cases h2 : m = "image"
        · subst h2
          refine ⟨?_, ?_, [⟨"tags_image.tag_id IS NULL", []⟩], ?_, by simp⟩ <;>
            simp [tagIsMissingCriterionHandler, repositoryJoin, filterBuilder.addJoin,
              filterBuilder.addWhere, filterBuilder.whereClauses, filterBuilder.havingClauses,
              filterBuilder.subFilter]
        · refine ⟨?_, ?_,
            [⟨"(tags." ++ m ++ " IS NULL OR TRIM(tags." ++ m ++ ") = '')", []⟩], ?_, by simp⟩ <;>
            simp [tagIsMissingCriterionHandler, h1, h2, filterBuilder.addWhere,
              filterBuilder.whereClauses, filterBuilder.havingClauses, filterBuilder.subFilter]

/-- Witness of C11: the value `details` on a builder that already joins
`scenes_tags`. -/
theorem tagIsMissing_effect_witness :
    tagIsMissingCriterionHandler (some "details")
        (.mk none "" [⟨"scenes_tags", "", "scenes_tags.tag_id = tags.id"⟩] [] []) =
      .mk none "" [⟨"scenes_tags", "", "scenes_tags.tag_id = tags.id"⟩]
        [⟨"(tags.details IS NULL OR TRIM(tags.details) = '')", []⟩] [] ∧
    tagIsMissingCriterionHandler (some "details")
        (.mk none "" [⟨"scenes_tags", "", "scenes_tags.tag_id = tags.id"⟩] [] []) =
      filterBuilder.addWhere
        (.mk none "" [⟨"scenes_tags", "", "scenes_tags.tag_id = tags.id"⟩] [] [])
        ("(tags." ++ "details" ++ " IS NULL OR TRIM(tags." ++ "details" ++ ") = '')") [] :=
  ⟨rfl,
    ((tagIsMissing_effect
      (.mk none "" [⟨"scenes_tags", "", "scenes_tags.tag_id = tags.id"⟩] [] [])).2.2.2.1
        "details" (by decide) (by decide)).1⟩

/-! ## The sort of a tag query -/

theorem TagAssociation.orderBy_text (a : TagAssociation) :
    " ORDER BY COUNT(distinct " ++ a.table ++ "." ++ a.related ++ ") " =
      match a with
      | .scenes => " ORDER BY COUNT(distinct scenes_tags.scene_id) "
      | .images => " ORDER BY COUNT(distinct images_tags.image_id) "
      | .galleries => " ORDER BY COUNT(distinct galleries_tags.gallery_id) "
      | .performers => " ORDER BY COUNT(distinct performers_tags.performer_id) " := by
  cases a <;> decide

/-- C12: for a non-nil find filter, `getTagSort` registers the join of the
association table and returns
` ORDER BY COUNT(distinct <assoc>.<related>_id) ` followed by the requested
direction when the sort key is `scenes_count`, `images_count`,
`galleries_count` or `performers_count`; for every other sort key, and for
an absent one, which defaults to `name`, it registers no join and returns
`getSort(sort, direction, "tags")`. -/
theorem getTagSort_resolution (h : sqlHelpers) (query : queryBuilder) (ff : FindFilterType) :
    (∀ a : TagAssociation, ff.Sort_ = some a.sortKey →
      getTagSort h query (some ff) =
        some (query.join a.table "" a.onClause,
          " ORDER BY COUNT(distinct " ++ a.table ++ "." ++ a.related ++ ") " ++
            ff.GetDirection)) ∧
    (∀ key : String, ff.Sort_ = some key → (∀ a : TagAssociation, key ≠ a.sortKey) →
      getTagSort h query (some ff) = some (query, h.getSort key ff.GetDirection "tags")) ∧
    (ff.Sort_ = none →
      getTagSort h query (some ff) = some (query, h.getSort "name" ff.GetDirection "tags")) := by
  refine ⟨?_, ?_, ?_⟩
  · intro a hs
    rw [a.orderBy_text]
    cases a <;>
      simp [getTagSort, hs, TagAssociation.sortKey, TagAssociation.table,
        TagAssociation.onClause]
  · intro key hs hne
    have h1 := hne .scenes
    have h2 := hne .images
    have h3 := hne .galleries
    have h4 := hne .performers
    simp only [TagAssociation.sortKey] at h1 h2 h3 h4
    simp [getTagSort, hs, h1, h2, h3, h4, FindFilterType.GetSort]
  · intro hs
    simp [getTagSort, hs, FindFilterType.GetSort]

/-- Witness of C12: sorting on `images_count`, descending. -/
theorem getTagSort_resolution_witness :
    getTagSort memHelpers newQuery (some ⟨none, none, none, some "images_count", some .DESC⟩) =
      some (⟨"", [⟨"images_tags", "", "images_tags.tag_id = tags.id"⟩], [], [], [], ""⟩,
        " ORDER BY COUNT(distinct images_tags.image_id) DESC") ∧
    getTagSort memHelpers newQuery (some ⟨none, none, none, some "images_count", some .DESC⟩) =
      some (newQuery.join TagAssociation.images.table "" TagAssociation.images.onClause,
        " ORDER BY COUNT(distinct " ++ TagAssociation.images.table ++ "." ++
          TagAssociation.images.related ++ ") " ++
          FindFilterType.GetDirection ⟨none, none, none, some "images_count", some .DESC⟩) :=
  ⟨by decide,
    (getTagSort_resolution memHelpers newQuery
      ⟨none, none, none, some "images_count", some .DESC⟩).1 .images rfl⟩

/-! ## `Find` -/

/-- C13: `Find` returns `(nil, nil)` when `get` fails with `sql.ErrNoRows`,
returns `(nil, err)` with the error unmodified when `get` fails with any
other error, and returns the fetched tag with a nil error when `get`
succeeds. -/
theorem Find_results {σ : Type} (tx : dbi σ) (id : Int) (s : σ) :
    (tx.get id s = .error GoError.ErrNoRows → Find tx id s = .ok none) ∧
    (∀ err, err ≠ GoError.ErrNoRows → tx.get id s = .error err →
      Find tx id s = .error err) ∧
    (∀ tag, tx.get id s = .ok tag → Find tx id s = .ok (some tag)) := by
  refine ⟨?_, ?_, ?_⟩
  · intro hg
    simp [Find, hg]
  · intro err hne hg
    simp [Find, hg, hne]
  · intro tag hg
    simp [Find, hg]

/-- Witness of C13: a row that is there, a row that is not, and a store
whose `get` fails. -/
theorem Find_results_witness :
    Find memTx 1 ⟨[⟨1, "a"⟩], [], [], [], []⟩ = .ok (some ⟨1, "a"⟩) ∧
    Find memTx 2 ⟨[⟨1, "a"⟩], [], [], [], []⟩ = .ok none ∧
    Find { memTx with get := fun _ _ => .error (GoError.storage 3) } 1
        ⟨[⟨1, "a"⟩], [], [], [], []⟩ = .error (GoError.storage 3) :=
  ⟨(Find_results memTx 1 ⟨[⟨1, "a"⟩], [], [], [], []⟩).2.2 ⟨1, "a"⟩ rfl,
    (Find_results memTx 2 ⟨[⟨1, "a"⟩], [], [], [], []⟩).1 rfl,
    (Find_results { memTx with get := fun _ _ => .error (GoError.storage 3) } 1
      ⟨[⟨1, "a"⟩], [], [], [], []⟩).2.1 (GoError.storage 3) (by decide) rfl⟩

/-! ## `FindScene`: the error of the lookup by id -/

/-- On the `id` path `FindScene` returns what `Find` leaves in `scene` with
a nil error, whatever error `Find` returns. -/
theorem FindScene_id_result (atoi : String → Except GoError Int) (repo : SceneReader)
    (idStr : String) (checksum : Option String) (idInt : Int) (h : atoi idStr = .ok idInt) :
    FindScene atoi repo (some idStr) checksum = ((repo.Find idInt).1, none) := by
  simp [FindScene, withReadTxn, FindScene.fn, h]

/-- On the checksum path `FindScene` returns no scene and the error of
`FindByChecksum` when there is one. -/
theorem FindScene_checksum_error (atoi : String → Except GoError Int) (repo : SceneReader)
    (c : String) (err : GoError) (h : (repo.FindByChecksum c).2 = some err) :
    FindScene atoi repo none (some c) = (none, some err) := by
  simp [FindScene, withReadTxn, FindScene.fn, h]

/-- C14, the code at the failing input: the scene reader fails every lookup
with a storage error. Called with the id `1`, `FindScene` returns a nil
scene and a nil error, the error of `Find` being lost; called with a
checksum, it returns the error of `FindByChecksum`. -/
theorem FindScene_loses_find_error :
    failingScenes.Find 1 = (none, some (GoError.storage 7)) ∧
    FindScene Atoi failingScenes (some "1") none = (none, none) ∧
    FindScene Atoi failingScenes none (some "abc") = (none, some (GoError.storage 8)) := by
  refine ⟨rfl, by decide, by decide⟩

/-! ## `Destroy`: the sequence of statements -/

/-- C15: `Destroy` runs the delete on `scenes_tags`, then the delete on
`scene_markers_tags`, then the count of the scene markers that have the tag
as primary tag. An error of any of these statements stops the sequence and
is returned unchanged. With a count above zero `Destroy` fails with the
domain error and `destroyExisting` is not run; otherwise it returns what
`destroyExisting([id])` returns, its error included. So when every
statement succeeds, `Destroy` fails with the domain error exactly when the
count is above zero. -/
theorem Destroy_sequence {σ : Type} (tx : dbi σ) (id : Int) (s : σ) :
    (∀ s1 err, tx.Exec "DELETE FROM scenes_tags WHERE tag_id = ?" [Arg.int id] s =
        (s1, some err) → Destroy tx id s = (s1, some err)) ∧
    (∀ s1, tx.Exec "DELETE FROM scenes_tags WHERE tag_id = ?" [Arg.int id] s = (s1, none) →
      (∀ s2 err, tx.Exec "DELETE FROM scene_markers_tags WHERE tag_id = ?" [Arg.int id] s1 =
          (s2, some err) → Destroy tx id s = (s2, some err)) ∧
      (∀ s2, tx.Exec "DELETE FROM scene_markers_tags WHERE tag_id = ?" [Arg.int id] s1 =
          (s2, none) →
        (∀ err, tx.runCountQuery
            "SELECT COUNT(*) as count FROM scene_markers where primary_tag_id = ?"
            [Arg.int id] s2 = .error err → Destroy tx id s = (s2, some err)) ∧
        (∀ primaryMarkers, tx.runCountQuery
            "SELECT COUNT(*) as count FROM scene_markers where primary_tag_id = ?"
            [Arg.int id] s2 = .ok primaryMarkers →
          (primaryMarkers > 0 → Destroy tx id s =
            (s2, some (GoError.New "Cannot delete tag used as a primary tag in scene markers"))) ∧
          (primaryMarkers ≤ 0 → Destroy tx id s = tx.destroyExisting [id] s2) ∧
          ((tx.destroyExisting [id] s2).2 = none →
            ((Destroy tx id s).2 =
                some (GoError.New "Cannot delete tag used as a primary tag in scene markers") ↔
              primaryMarkers > 0))))) := by
  refine ⟨?_, ?_⟩
  · intro s1 err h1
    simp only [Destroy, h1]
  · intro s1 h1
    refine ⟨?_, ?_⟩
    · intro s2 err h2
      simp only [Destroy, h1, h2]
    · intro s2 h2
      refine ⟨?_, ?_⟩
      · intro err h3
        simp only [Destroy, h1, h2, h3]
      · intro primaryMarkers h3
        have hpos : primaryMarkers > 0 → Destroy tx id s =
            (s2, some (GoError.New
              "Cannot delete tag used as a primary tag in scene markers")) := by
          intro hp
          simp only [Destroy, h1, h2, h3, hp, if_true]
        have hzero : primaryMarkers ≤ 0 → Destroy tx id s = tx.destroyExisting [id] s2 := by
          intro hp
          have hp2 : ¬ primaryMarkers > 0 := by omega
          simp only [Destroy, h1, h2, h3, hp2, if_false]
        refine ⟨hpos, hzero, ?_⟩
        intro hd
        constructor
        · intro he
          by_contra hp
          rw [hzero (by omega), hd] at he
          exact absurd he (by simp)
        · intro hp
          rw [hpos hp]

/-- Witness of C15: tag 1 is attached to scene 5 and to marker 9 and is the
primary tag of no marker; the association rows go first, then the tag. -/
theorem Destroy_sequence_witness :
    Destroy memTx 1 ⟨[⟨1, "a"⟩, ⟨2, "b"⟩], [(5, 1), (5, 2)], [(9, 1)], [(9, 2)], []⟩ =
      (⟨[⟨2, "b"⟩], [(5, 2)], [], [(9, 2)],
          ["DELETE FROM scenes_tags WHERE tag_id = ?",
            "DELETE FROM scene_markers_tags WHERE tag_id = ?",
            "DELETE FROM tags WHERE id = ?"]⟩, none) ∧
    Destroy memTx 1 ⟨[⟨1, "a"⟩, ⟨2, "b"⟩], [(5, 1), (5, 2)], [(9, 1)], [(9, 2)], []⟩ =
      memTx.destroyExisting [1]
        ⟨[⟨1, "a"⟩, ⟨2, "b"⟩], [(5, 2)], [], [(9, 2)],
          ["DELETE FROM scenes_tags WHERE tag_id = ?",
            "DELETE FROM scene_markers_tags WHERE tag_id = ?"]⟩ :=
  ⟨by decide,
    (((((Destroy_sequence memTx 1
      ⟨[⟨1, "a"⟩, ⟨2, "b"⟩], [(5, 1), (5, 2)], [(9, 1)], [(9, 2)], []⟩).2
        ⟨[⟨1, "a"⟩, ⟨2, "b"⟩], [(5, 2)], [(9, 1)], [(9, 2)],
          ["DELETE FROM scenes_tags WHERE tag_id = ?"]⟩ (by decide)).2
        ⟨[⟨1, "a"⟩, ⟨2, "b"⟩], [(5, 2)], [], [(9, 2)],
          ["DELETE FROM scenes_tags WHERE tag_id = ?",
            "DELETE FROM scene_markers_tags WHERE tag_id = ?"]⟩ (by decide)).2
        0 (by rfl)).2.1 (by decide))⟩

/-! ## `getTagSort` on a nil find filter -/

/-- C16, the code at the failing input: on a nil find filter `getTagSort`
sets the default sort and direction and then reads `findFilter.Sort` through
the nil pointer, so it panics instead of returning the default sort. -/
theorem getTagSort_nil_findFilter (h : sqlHelpers) (query : queryBuilder) :
    getTagSort h query none = none ∧
    getTagSort h query none ≠ some (query, getDefaultTagSort h) := by
  refine ⟨rfl, ?_⟩
  simp [getTagSort]

/-! ## `makeFilter` on a validated tree -/

theorem subFilter_addJoin (f : filterBuilder) (table as onClause : String) :
    (f.addJoin table as onClause).subFilter = f.subFilter ∧
    (f.addJoin table as onClause).subFilterOp = f.subFilterOp := by
  rcases f with ⟨sub, op, js, w, hv⟩
  exact ⟨rfl, rfl⟩

theorem subFilter_addWhere (f : filterBuilder) (sql : String) (args : List Arg) :
    (f.addWhere sql args).subFilter = f.subFilter ∧
    (f.addWhere sql args).subFilterOp = f.subFilterOp := by
  rcases f with ⟨sub, op, js, w, hv⟩
  exact ⟨rfl, rfl⟩

theorem subFilter_addHaving (f : filterBuilder) (sql : String) (args : List Arg) :
    (f.addHaving sql args).subFilter = f.subFilter ∧
    (f.addHaving sql args).subFilterOp = f.subFilterOp := by
  rcases f with ⟨sub, op, js, w, hv⟩
  exact ⟨rfl, rfl⟩

theorem subFilter_isMissing (isMissing : Option String) (f : filterBuilder) :
    (tagIsMissingCriterionHandler isMissing f).subFilter = f.subFilter ∧
    (tagIsMissingCriterionHandler isMissing f).subFilterOp = f.subFilterOp := by
  rcases isMissing with _ | m
  · exact ⟨rfl, rfl⟩
  · simp only [tagIsMissingCriterionHandler]
    split_ifs
    · simp only [repositoryJoin, (subFilter_addWhere _ _ _).1, (subFilter_addWhere _ _ _).2,
        (subFilter_addJoin _ _ _ _).1, (subFilter_addJoin _ _ _ _).2, and_self]
    · exact subFilter_addWhere _ _ _
    · exact ⟨rfl, rfl⟩

theorem subFilter_handler (h : sqlHelpers) (a : TagAssociation) (c : Option IntCriterionInput)
    (f : filterBuilder) :
    (a.handler h c f).subFilter = f.subFilter ∧
    (a.handler h c f).subFilterOp = f.subFilterOp := by
  rcases c with _ | c
  · rw [handler_none]
    exact ⟨rfl, rfl⟩
  · rw [handler_some]
    simp only [(subFilter_addHaving _ _ _).1, (subFilter_addHaving _ _ _).2,
      (subFilter_addJoin _ _ _ _).1, (subFilter_addJoin _ _ _ _).2, and_self]

/-- The five handlers leave the sub-filter of the builder as it is. -/
theorem subFilter_applyTagCriteria (h : sqlHelpers) (query : filterBuilder)
    (isMissing : Option String)
    (sceneCount imageCount galleryCount performerCount : Option IntCriterionInput) :
    (applyTagCriteria h query isMissing sceneCount imageCount galleryCount
      performerCount).subFilter = query.subFilter ∧
    (applyTagCriteria h query isMissing sceneCount imageCount galleryCount
      performerCount).subFilterOp = query.subFilterOp := by
  have h0 := subFilter_isMissing isMissing query
  have h1 := subFilter_handler h .scenes sceneCount (tagIsMissingCriterionHandler isMissing query)
  have h2 := subFilter_handler h .images imageCount
    (TagAssociation.scenes.handler h sceneCount (tagIsMissingCriterionHandler isMissing query))
  have h3 := subFilter_handler h .galleries galleryCount
    (TagAssociation.images.handler h imageCount
      (TagAssociation.scenes.handler h sceneCount (tagIsMissingCriterionHandler isMissing query)))
  have h4 := subFilter_handler h .performers performerCount
    (TagAssociation.galleries.handler h galleryCount
      (TagAssociation.images.handler h imageCount
        (TagAssociation.scenes.handler h sceneCount
          (tagIsMissingCriterionHandler isMissing query))))
  exact ⟨h4.1.trans (h3.1.trans (h2.1.trans (h1.1.trans h0.1))),
    h4.2.trans (h3.2.trans (h2.2.trans (h1.2.trans h0.2)))⟩

theorem chainLength_of_subFilter (f : filterBuilder) :
    f.chainLength = match f.subFilter with
      | none => 1
      | some sub => sub.chainLength + 1 := by
  rcases f with ⟨sub, op, js, w, hv⟩
  rcases sub with _ | sub <;> rfl

theorem validateFilter_child_none {t c : TagFilterType}
    (hc : t.And = some c ∨ t.Or = some c ∨ t.Not = some c) (hv : validateFilter t = none) :
    validateFilter c = none := by
  by_contra hne
  have hs : (validateFilter c).isSome := by
    cases hvc : validateFilter c with
    | none => exact absurd hvc hne
    | some e => rfl
  have := validateFilter_of_child hc hs
  simp [hv] at this

theorem validateFilter_node_none {t n : TagFilterType} (hn : TagFilterType.Node t n)
    (hv : validateFilter t = none) : validateFilter n = none := by
  induction hn with
  | root t => exact hv
  | viaAnd ha _ ih => exact ih (validateFilter_child_none (Or.inl ha) hv)
  | viaOr ho _ ih => exact ih (validateFilter_child_none (Or.inr (Or.inl ho)) hv)
  | viaNot hx _ ih => exact ih (validateFilter_child_none (Or.inr (Or.inr hx)) hv)

theorem populated_of_validated {n : TagFilterType} (hv : validateFilter n = none) :
    n.populated ≤ 1 := by
  by_contra hp
  obtain ⟨e, he, _⟩ := validateFilter_rejects_here (n := n) (by omega)
  simp [hv] at he

/-- The chain built for a validated tree has one builder per node. -/
theorem makeFilter_chainLength (h : sqlHelpers) :
    ∀ t : TagFilterType, validateFilter t = none → (makeFilter h t).chainLength = t.nodeCount
  | .mk none none none m c1 c2 c3 c4, _ => by
    rw [chainLength_of_subFilter]
    simp only [makeFilter, (subFilter_applyTagCriteria h _ m c1 c2 c3 c4).1]
    simp [filterBuilder.empty, filterBuilder.subFilter, TagFilterType.nodeCount]
  | .mk (some a) none none m c1 c2 c3 c4, hv => by
    have ha : validateFilter a = none := by simpa [validateFilter] using hv
    rw [chainLength_of_subFilter]
    simp only [makeFilter, (subFilter_applyTagCriteria h _ m c1 c2 c3 c4).1]
    simp [filterBuilder.empty, filterBuilder.and, filterBuilder.attach, filterBuilder.subFilter,
      TagFilterType.nodeCount, makeFilter_chainLength h a ha]
    omega
  | .mk none (some o) none m c1 c2 c3 c4, hv => by
    have ho : validateFilter o = none := by simpa [validateFilter] using hv
    rw [chainLength_of_subFilter]
    simp only [makeFilter, (subFilter_applyTagCriteria h _ m c1 c2 c3 c4).1]
    simp [filterBuilder.empty, filterBuilder.or, filterBuilder.attach, filterBuilder.subFilter,
      TagFilterType.nodeCount, makeFilter_chainLength h o ho]
    omega
  | .mk none none (some n) m c1 c2 c3 c4, hv => by
    have hn : validateFilter n = none := by simpa [validateFilter] using hv
    rw [chainLength_of_subFilter]
    simp only [makeFilter, (subFilter_applyTagCriteria h _ m c1 c2 c3 c4).1]
    simp [filterBuilder.empty, filterBuilder.not, filterBuilder.attach, filterBuilder.subFilter,
      TagFilterType.nodeCount, makeFilter_chainLength h n hn]
    omega
  | .mk (some a) (some o) x m c1 c2 c3 c4, hv => by
    simp [validateFilter] at hv
  | .mk (some a) none (some n) m c1 c2 c3 c4, hv => by
    simp [validateFilter] at hv
  | .mk none (some o) (some n) m c1 c2 c3 c4, hv => by
    simp [validateFilter] at hv

/-- What `makeFilter` builds at a node that validation accepts. -/
theorem makeFilter_node (h : sqlHelpers) (n : TagFilterType) (hv : validateFilter n = none) :
    (∃ base : filterBuilder,
      makeFilter h n =
        tagPerformerCountCriterionHandler h n.PerformerCount
          (tagGalleryCountCriterionHandler h n.GalleryCount
            (tagImageCountCriterionHandler h n.ImageCount
              (tagSceneCountCriterionHandler h n.SceneCount
                (tagIsMissingCriterionHandler n.IsMissing base)))) ∧
      (∀ c, n.And = some c → base = filterBuilder.empty.and (makeFilter h c)) ∧
      (∀ c, n.Or = some c → base = filterBuilder.empty.or (makeFilter h c)) ∧
      (∀ c, n.Not = some c → base = filterBuilder.empty.not (makeFilter h c)) ∧
      (n.populated = 0 → base = filterBuilder.empty)) ∧
    (∀ c, n.And = some c →
      (makeFilter h n).subFilter = some (makeFilter h c) ∧
      (makeFilter h n).subFilterOp = "AND") ∧
    (∀ c, n.Or = some c →
      (makeFilter h n).subFilter = some (makeFilter h c) ∧
      (makeFilter h n).subFilterOp = "OR") ∧
    (∀ c, n.Not = some c →
      (makeFilter h n).subFilter = some (makeFilter h c) ∧
      (makeFilter h n).subFilterOp = "NOT") ∧
    (n.populated = 0 → (makeFilter h n).subFilter = none) := by
  rcases n with ⟨a, o, x, m, c1, c2, c3, c4⟩
  rcases a with _ | a <;> rcases o with _ | o <;> rcases x with _ | x <;>
    simp [validateFilter] at hv
  · have hm : makeFilter h (.mk none none none m c1 c2 c3 c4) =
        applyTagCriteria h filterBuilder.empty m c1 c2 c3 c4 := by
      simp only [makeFilter]
    have hs := subFilter_applyTagCriteria h filterBuilder.empty m c1 c2 c3 c4
    have hnoAnd : ∀ c, TagFilterType.And (.mk none none none m c1 c2 c3 c4) ≠ some c := by
      intro c hc
      simp [TagFilterType.And] at hc
    have hnoOr : ∀ c, TagFilterType.Or (.mk none none none m c1 c2 c3 c4) ≠ some c := by
      intro c hc
      simp [TagFilterType.Or] at hc
    have hnoNot : ∀ c, TagFilterType.Not (.mk none none none m c1 c2 c3 c4) ≠ some c := by
      intro c hc
      simp [TagFilterType.Not] at hc
    refine ⟨⟨filterBuilder.empty, hm, fun c hc => absurd hc (hnoAnd c),
      fun c hc => absurd hc (hnoOr c), fun c hc => absurd hc (hnoNot c), fun _ => rfl⟩,
      fun c hc => absurd hc (hnoAnd c), fun c hc => absurd hc (hnoOr c),
      fun c hc => absurd hc (hnoNot c), fun _ => ?_⟩
    rw [hm, hs.1]
    rfl
  · have hm : makeFilter h (.mk none none (some x) m c1 c2 c3 c4) =
        applyTagCriteria h (filterBuilder.empty.not (makeFilter h x)) m c1 c2 c3 c4 := by
      simp only [makeFilter]
    have hs := subFilter_applyTagCriteria h (filterBuilder.empty.not (makeFilter h x))
      m c1 c2 c3 c4
    have hyes : ∀ c, TagFilterType.Not (.mk none none (some x) m c1 c2 c3 c4) = some c → c = x := by
      intro c hc
      simpa [TagFilterType.Not] using hc.symm
    have hnoAnd : ∀ c, TagFilterType.And (.mk none none (some x) m c1 c2 c3 c4) ≠ some c := by
      intro c hc
      simp [TagFilterType.And] at hc
    have hnoOr : ∀ c, TagFilterType.Or (.mk none none (some x) m c1 c2 c3 c4) ≠ some c := by
      intro c hc
      simp [TagFilterType.Or] at hc
    have hpop : (TagFilterType.mk none none (some x) m c1 c2 c3 c4).populated ≠ 0 := by
      simp [TagFilterType.populated, TagFilterType.And, TagFilterType.Or, TagFilterType.Not]
    refine ⟨⟨filterBuilder.empty.not (makeFilter h x), hm, ?_, ?_, ?_,
      fun hp => absurd hp hpop⟩, ?_, ?_, ?_, fun hp => absurd hp hpop⟩
    · exact fun c hc => absurd hc (hnoAnd c)
    · exact fun c hc => absurd hc (hnoOr c)
    · intro c hc
      rw [hyes c hc]
    · exact fun c hc => absurd hc (hnoAnd c)
    · exact fun c hc => absurd hc (hnoOr c)
    · intro c hc
      rw [hyes c hc, hm, hs.1, hs.2]
      exact ⟨rfl, rfl⟩
  · have hm : makeFilter h (.mk none (some o) none m c1 c2 c3 c4) =
        applyTagCriteria h (filterBuilder.empty.or (makeFilter h o)) m c1 c2 c3 c4 := by
      simp only [makeFilter]
    have hs := subFilter_applyTagCriteria h (filterBuilder.empty.or (makeFilter h o))
      m c1 c2 c3 c4
    have hyes : ∀ c, TagFilterType.Or (.mk none (some o) none m c1 c2 c3 c4) = some c → c = o := by
      intro c hc
      simpa [TagFilterType.Or] using hc.symm
    have hnoAnd : ∀ c, TagFilterType.And (.mk none (some o) none m c1 c2 c3 c4) ≠ some c := by
      intro c hc
      simp [TagFilterType.And] at hc
    have hnoNot : ∀ c, TagFilterType.Not (.mk none (some o) none m c1 c2 c3 c4) ≠ some c := by
      intro c hc
      simp [TagFilterType.Not] at hc
    have hpop : (TagFilterType.mk none (some o) none m c1 c2 c3 c4).populated ≠ 0 := by
      simp [TagFilterType.populated, TagFilterType.And, TagFilterType.Or, TagFilterType.Not]
    refine ⟨⟨filterBuilder.empty.or (makeFilter h o), hm, ?_, ?_, ?_,
      fun hp => absurd hp hpop⟩, ?_, ?_, ?_, fun hp => absurd hp hpop⟩
    · exact fun c hc => absurd hc (hnoAnd c)
    · intro c hc
      rw [hyes c hc]
    · exact fun c hc => absurd hc (hnoNot c)
    · exact fun c hc => absurd hc (hnoAnd c)
    · intro c hc
      rw [hyes c hc, hm, hs.1, hs.2]
      exact ⟨rfl, rfl⟩
    · exact fun c hc => absurd hc (hnoNot c)
  · have hm : makeFilter h (.mk (some a) none none m c1 c2 c3 c4) =
        applyTagCriteria h (filterBuilder.empty.and (makeFilter h a)) m c1 c2 c3 c4 := by
      simp only [makeFilter]
    have hs := subFilter_applyTagCriteria h (filterBuilder.empty.and (makeFilter h a))
      m c1 c2 c3 c4
    have hyes : ∀ c, TagFilterType.And (.mk (some a) none none m c1 c2 c3 c4) = some c → c = a := by
      intro c hc
      simpa [TagFilterType.And] using hc.symm
    have hnoOr : ∀ c, TagFilterType.Or (.mk (some a) none none m c1 c2 c3 c4) ≠ some c := by
      intro c hc
      simp [TagFilterType.Or] at hc
    have hnoNot : ∀ c, TagFilterType.Not (.mk (some a) none none m c1 c2 c3 c4) ≠ some c := by
      intro c hc
      simp [TagFilterType.Not] at hc
    have hpop : (TagFilterType.mk (some a) none none m c1 c2 c3 c4).populated ≠ 0 := by
      simp [TagFilterType.populated, TagFilterType.And, TagFilterType.Or, TagFilterType.Not]
    refine ⟨⟨filterBuilder.empty.and (makeFilter h a), hm, ?_, ?_, ?_,
      fun hp => absurd hp hpop⟩, ?_, ?_, ?_, fun hp => absurd hp hpop⟩
    · intro c hc
      rw [hyes c hc]
    · exact fun c hc => absurd hc (hnoOr c)
    · exact fun c hc => absurd hc (hnoNot c)
    · intro c hc
      rw [hyes c hc, hm, hs.1, hs.2]
      exact ⟨rfl, rfl⟩
    · exact fun c hc => absurd hc (hnoOr c)
    · exact fun c hc => absurd hc (hnoNot c)

/-- C17: on a tree that `validateFilter` accepts, `makeFilter` returns a
builder chain with exactly one builder per node of the tree. At every node
of the tree at most one combinator is populated; the builder of the node is
the empty builder with at most one sub-filter attached, through `and`, `or`
or `not` according to the populated combinator and built by `makeFilter`
from that child (none at a leaf), to which the five handlers are applied in
the order isMissing, sceneCount, imageCount, galleryCount,
performerCount. -/
theorem makeFilter_validated (h : sqlHelpers) (t : TagFilterType)
    (hv : validateFilter t = none) :
    (makeFilter h t).chainLength = t.nodeCount ∧
    ∀ n, TagFilterType.Node t n →
      n.populated ≤ 1 ∧
      (∃ base : filterBuilder,
        makeFilter h n =
          tagPerformerCountCriterionHandler h n.PerformerCount
            (tagGalleryCountCriterionHandler h n.GalleryCount
              (tagImageCountCriterionHandler h n.ImageCount
                (tagSceneCountCriterionHandler h n.SceneCount
                  (tagIsMissingCriterionHandler n.IsMissing base)))) ∧
        (∀ c, n.And = some c → base = filterBuilder.empty.and (makeFilter h c)) ∧
        (∀ c, n.Or = some c → base = filterBuilder.empty.or (makeFilter h c)) ∧
        (∀ c, n.Not = some c → base = filterBuilder.empty.not (makeFilter h c)) ∧
        (n.populated = 0 → base = filterBuilder.empty)) ∧
      (∀ c, n.And = some c →
        (makeFilter h n).subFilter = some (makeFilter h c) ∧
        (makeFilter h n).subFilterOp = "AND") ∧
      (∀ c, n.Or = some c →
        (makeFilter h n).subFilter = some (makeFilter h c) ∧
        (makeFilter h n).subFilterOp = "OR") ∧
      (∀ c, n.Not = some c →
        (makeFilter h n).subFilter = some (makeFilter h c) ∧
        (makeFilter h n).subFilterOp = "NOT") ∧
      (n.populated = 0 → (makeFilter h n).subFilter = none) ∧
      (makeFilter h n).chainLength = n.nodeCount := by
  refine ⟨makeFilter_chainLength h t hv, ?_⟩
  intro n hn
  have hvn := validateFilter_node_none hn hv
  obtain ⟨hb, h1, h2, h3, h4⟩ := makeFilter_node h n hvn
  exact ⟨populated_of_validated hvn, hb, h1, h2, h3, h4, makeFilter_chainLength h n hvn⟩

/-- Witness of C17: a scene-count node under `Not` under `And` under the
root, three links and so four builders. -/
theorem makeFilter_validated_witness :
    validateFilter
        (.mk (some (.mk none none (some (.mk none (some .empty) none none
          (some ⟨2, .GREATER_THAN⟩) none none none)) (some "image") none none none none))
          none none none none none none none) = none ∧
    (makeFilter memHelpers
        (.mk (some (.mk none none (some (.mk none (some .empty) none none
          (some ⟨2, .GREATER_THAN⟩) none none none)) (some "image") none none none none))
          none none none none none none none)).chainLength = 4 ∧
    (makeFilter memHelpers
        (.mk (some (.mk none none (some (.mk none (some .empty) none none
          (some ⟨2, .GREATER_THAN⟩) none none none)) (some "image") none none none none))
          none none none none none none none)).chainLength =
      (TagFilterType.mk (some (.mk none none (some (.mk none (some .empty) none none
          (some ⟨2, .GREATER_THAN⟩) none none none)) (some "image") none none none none))
          none none none none none none none).nodeCount :=
  ⟨by decide, by decide,
    (makeFilter_validated memHelpers
      (.mk (some (.mk none none (some (.mk none (some .empty) none none
        (some ⟨2, .GREATER_THAN⟩) none none none)) (some "image") none none none none))
        none none none none none none none) (by decide)).1⟩

end Stash
